import Mathlib

/-!
Shallow embedding of the `edc-randomization` allocation engine, list verifier
and list exporter.

The embedding translates the Django/Python source:
  * `edc_randomization/randomizer.py` (class `Randomizer`),
  * `edc_randomization/randomization_list_verifier.py`
    (class `RandomizationListVerifier`),
  * `randomization_list_exporter.py` (class `RandomizationListExporter`).

Database tables become lists of records; Django ORM operations
(`get`, `filter`, `order_by`, `first`, `count`) become the corresponding list
operations; a `get` that finds no row or several rows is modelled through
`Edc.getOne`, mirroring `ObjectDoesNotExist` / `MultipleObjectsReturned`.
Exceptions become constructors of explicit error types, one constructor per
raise site of the source, and fallible code returns `Except`.
-/

namespace Edc

/-- Result of the Django `objects.get(...)` call on an already filtered
row list: exactly one row, no row (`ObjectDoesNotExist`), or several rows
(`MultipleObjectsReturned`). -/
inductive GetResult (α : Type) where
  | found (a : α)
  | doesNotExist
  | multipleObjectsReturned
deriving DecidableEq

/-- Django `objects.get` on the list of rows matching the filter. -/
def getOne {α : Type} : List α → GetResult α
  | [] => .doesNotExist
  | [x] => .found x
  | _ :: _ :: _ => .multipleObjectsReturned

instance {ε α : Type} [DecidableEq ε] [DecidableEq α] : DecidableEq (Except ε α) := fun a b =>
  match a, b with
  | .ok x, .ok y =>
    if h : x = y then .isTrue (h ▸ rfl) else .isFalse (fun hc => h (Except.ok.inj hc))
  | .ok _, .error _ => .isFalse (fun hc => Except.noConfusion hc)
  | .error _, .ok _ => .isFalse (fun hc => Except.noConfusion hc)
  | .error e, .error f =>
    if h : e = f then .isTrue (h ▸ rfl) else .isFalse (fun hc => h (Except.error.inj hc))

/-- An SQL `UPDATE` of a previously fetched row (`obj.save()` in Django):
the first list entry equal to the fetched row is replaced by the new row.
Rows are plain records here, so the fetched row is identified by its value. -/
def updateFirst {α : Type} [DecidableEq α] (l : List α) (old new : α) : List α :=
  match l with
  | [] => []
  | x :: xs => if x = old then new :: xs else x :: updateFirst xs old new

/-- One row of the `RandomizationList` model (the Slot table): fields used by
`randomizer.py`, `randomization_list_verifier.py` and the exporter.  `sid` is
the slot identifier; `subjectIdentifier = none` means the slot is unallocated.
`allocation` is the integer allocation the importer derives from the
assignment map (read back by the exporter). -/
structure Slot where
  sid : Nat
  assignment : String
  siteName : String
  subjectIdentifier : Option String
  allocated : Bool
  allocatedDatetime : Option Nat
  allocatedUser : Option String
  allocatedSite : Option String
  allocation : Nat
deriving DecidableEq

/-- One row of the registration model (`RegisteredSubject`, resolved through
`edc_registration.utils.get_registered_subject_model_cls`): the fields
`randomizer.py` reads and writes. -/
structure Registration where
  subjectIdentifier : Option String
  sid : Option Nat
  randomizationDatetime : Option Nat
  registrationStatus : Option String
  randomizationListModel : Option String
deriving DecidableEq

/-- The persisted state seen by `Randomizer.randomize`: the Slot table and the
registration table. -/
structure Store where
  slots : List Slot
  registrations : List Registration
deriving DecidableEq

/-- Django model label of the default rando model
(`Randomizer.model = "edc_randomization.randomizationlist"`,
`randomizer.py` line 87); used as the `AlreadyRandomized.code` at the slot
raise site. -/
def slotModelLabel : String := "edc_randomization.randomizationlist"

/-- Django model label of the registration model.  The model class itself
lives in the external `edc_registration` package; its label is pinned by the
test suite (`test_randomizer.py` asserts
`cm.exception.code == "edc_registration.registeredsubject"`). -/
def registrationModelLabel : String := "edc_registration.registeredsubject"

/-- Value of `edc_constants`/`.constants.RANDOMIZED` written into
`registration_status`. -/
def RANDOMIZED : String := "randomized"

/-- Errors raised by `Randomizer.randomize` and its helpers.  Each constructor
corresponds to one raise site of `randomizer.py`: `registrationNotFound` and
`insufficientData` are the two `RandomizationError` raise sites (distinguished
by their messages in the source), `alreadyRandomized` carries the
`ValidationError` `code`, `allocationError` carries the formatted message,
and `objectDoesNotExist` / `multipleObjectsReturned` are the unhandled Django
lookup exceptions escaping the two requery `get` calls. -/
inductive RandoError where
  | registrationNotFound (identifier : Option String)
  | alreadyRandomized (code : String)
  | insufficientData (required : List (String × Bool))
  | allocationError (msg : String)
  | objectDoesNotExist
  | multipleObjectsReturned
deriving DecidableEq

/-- Caller-supplied arguments of `Randomizer.__init__` used by `randomize`:
identifier, report datetime, site (modelled by its name) and user. -/
structure RandomizeArgs where
  subjectIdentifier : Option String
  reportDatetime : Option Nat
  site : Option String
  user : Option String
deriving DecidableEq

/-- Scheme-specific hooks of a `Randomizer` subclass: the base class returns
`{}` for both `extra_required_instance_attrs` and `extra_model_obj_options`.
`extraRequired` lists extra attribute names with their Python truthiness,
`extraFilter` is the predicate the extra filter options induce on slots, and
`extraOpts` renders those options for the `AllocationError` message. -/
structure Scheme where
  extraRequired : List (String × Bool)
  extraFilter : Slot → Bool
  extraOpts : List (String × String)

/-- The base `Randomizer` scheme: no extra attributes, no extra filter. -/
def defaultScheme : Scheme :=
  { extraRequired := [], extraFilter := fun _ => true, extraOpts := [] }

/-- Python truthiness of an optional string (`None` and `""` are falsy). -/
def truthyStr : Option String → Bool
  | none => false
  | some s => !(s == "")

/-- The `required_instance_attrs` dict of `randomize`, as (name, truthiness)
pairs, in source order: `allocated_datetime`, `user`, `site`,
`**identifier_opts`, `**extra_required_instance_attrs`.  A datetime or site
object is truthy exactly when it is not `None`. -/
def requiredAttrs (sch : Scheme) (args : RandomizeArgs) : List (String × Bool) :=
  [("allocated_datetime", args.reportDatetime.isSome),
   ("user", truthyStr args.user),
   ("site", args.site.isSome),
   ("subject_identifier", truthyStr args.subjectIdentifier)]
  ++ sch.extraRequired

/-- Ordering of slots used by the `order_by("sid")` queries. -/
def sidLE (a b : Slot) : Prop := a.sid ≤ b.sid

instance : DecidableRel sidLE := fun a b => Nat.decLe a.sid b.sid

instance : IsTotal Slot sidLE := ⟨fun a b => Nat.le_total a.sid b.sid⟩

instance : IsTrans Slot sidLE := ⟨fun _ _ _ h₁ h₂ => Nat.le_trans h₁ h₂⟩

/-- `objects.all().order_by("sid")`. -/
def sortedBySid (slots : List Slot) : List Slot := List.insertionSort sidLE slots

/-- The slot rows passing the eligibility filter of `Randomizer.model_obj`:
`subject_identifier` null, `site_name` equal to the caller site, plus any
`extra_model_obj_options` of the scheme. -/
def eligibleSlots (slots : List Slot) (siteName : String) (f : Slot → Bool) : List Slot :=
  slots.filter (fun sl => sl.subjectIdentifier == none && sl.siteName == siteName && f sl)

/-- `filter(...).order_by("sid").first()`: the eligible slot with the smallest
sid, or `none` when the pool for this site/filter is exhausted. -/
def selectSlot (slots : List Slot) (siteName : String) (f : Slot → Bool) : Option Slot :=
  (List.insertionSort sidLE (eligibleSlots slots siteName f)).head?

/-- The `AllocationError` message of `model_obj`: `fld_str` joins the filter
options `site_name` plus the extra options, each as ``key=`value` ``. -/
def allocMsg (siteName : String) (extraOpts : List (String × String)) : String :=
  "Randomization failed. No additional SIDs available for "
    ++ String.intercalate ", "
        ((("site_name", siteName) :: extraOpts).map (fun kv => kv.1 ++ "=`" ++ kv.2 ++ "`"))
    ++ "."

/-- `Randomizer.registration_obj`: return the unallocated registration for the
identifier; if there is none but a registration exists, raise
`AlreadyRandomized` with the registration model label as code; if no
registration exists at all, raise the "does not exist" `RandomizationError`. -/
def registrationObj (store : Store) (id : Option String) : Except RandoError Registration :=
  match getOne (store.registrations.filter
      (fun r => r.sid == none && r.subjectIdentifier == id)) with
  | .found r => .ok r
  | .multipleObjectsReturned => .error .multipleObjectsReturned
  | .doesNotExist =>
    match getOne (store.registrations.filter (fun r => r.subjectIdentifier == id)) with
    | .doesNotExist => .error (.registrationNotFound id)
    | .multipleObjectsReturned => .error .multipleObjectsReturned
    | .found _ => .error (.alreadyRandomized registrationModelLabel)

/-- `Randomizer.model_obj`: if a slot is already bound to the identifier,
raise `AlreadyRandomized` with the rando model label as code; otherwise select
the next available slot or raise `AllocationError`. -/
def modelObj (sch : Scheme) (slots : List Slot) (id : Option String) (siteName : String) :
    Except RandoError Slot :=
  match getOne (slots.filter (fun sl => sl.subjectIdentifier == id)) with
  | .found _ => .error (.alreadyRandomized slotModelLabel)
  | .multipleObjectsReturned => .error .multipleObjectsReturned
  | .doesNotExist =>
    match selectSlot slots siteName sch.extraFilter with
    | some sl => .ok sl
    | none => .error (.allocationError (allocMsg siteName sch.extraOpts))

/-- The attribute writes of `randomize` onto the chosen slot before
`model_obj.save()`. -/
def claimSlot (sl : Slot) (args : RandomizeArgs) : Slot :=
  { sl with
    subjectIdentifier := args.subjectIdentifier
    allocatedDatetime := args.reportDatetime
    allocatedUser := args.user
    allocatedSite := args.site
    allocated := true }

/-- The slot requery of `randomize`:
`objects.get(allocated=True, allocated_datetime=..., **identifier_opts)`.
A miss escapes as the Django `ObjectDoesNotExist`. -/
def requeryAllocated (slots : List Slot) (dt : Option Nat) (id : Option String) :
    Except RandoError Slot :=
  match getOne (slots.filter
      (fun sl => sl.allocated && sl.allocatedDatetime == dt && sl.subjectIdentifier == id)) with
  | .found sl => .ok sl
  | .doesNotExist => .error .objectDoesNotExist
  | .multipleObjectsReturned => .error .multipleObjectsReturned

/-- The registration writes of `randomize` before `registration_obj.save()`. -/
def updateRegistration (r : Registration) (sl : Slot) : Registration :=
  { r with
    sid := some sl.sid
    randomizationDatetime := sl.allocatedDatetime
    registrationStatus := some RANDOMIZED
    randomizationListModel := some slotModelLabel }

/-- The registration requery of `randomize`:
`objects.get(sid=..., **identifier_opts)`. -/
def requeryRegistration (regs : List Registration) (sid : Nat) (id : Option String) :
    Except RandoError Registration :=
  match getOne (regs.filter (fun r => r.sid == some sid && r.subjectIdentifier == id)) with
  | .found r => .ok r
  | .doesNotExist => .error .objectDoesNotExist
  | .multipleObjectsReturned => .error .multipleObjectsReturned

/-- `Randomizer.randomize`, with an interference hook: `interfere` is applied
to the slot table between `model_obj.save()` and the slot requery, standing
for whatever a concurrent writer does in that window (`id` for the
single-threaded run).  The call returns the updated store and the consumed
sid (the Python method returns `None`; the sid is what it wrote).  The source
guard `if self.model_obj.sid is None` cannot fire here because `sid` is not
nullable in this model. -/
def randomizeCore (sch : Scheme) (store : Store) (args : RandomizeArgs)
    (interfere : List Slot → List Slot) : Except RandoError (Store × Nat) :=
  match registrationObj store args.subjectIdentifier with
  | .error e => .error e
  | .ok reg =>
    let req := requiredAttrs sch args
    if !(req.all (fun kv => kv.2)) then
      .error (.insufficientData req)
    else
      match args.site with
      | none => .error (.insufficientData req)
      | some siteName =>
        match modelObj sch store.slots args.subjectIdentifier siteName with
        | .error e => .error e
        | .ok sl =>
          let slots1 := interfere (updateFirst store.slots sl (claimSlot sl args))
          match requeryAllocated slots1 args.reportDatetime args.subjectIdentifier with
          | .error e => .error e
          | .ok slRe =>
            let regs1 := updateFirst store.registrations reg (updateRegistration reg slRe)
            match requeryRegistration regs1 slRe.sid args.subjectIdentifier with
            | .error e => .error e
            | .ok _ => .ok ({ slots := slots1, registrations := regs1 }, slRe.sid)

/-- `Randomizer.randomize` in a single-threaded run (no interference). -/
def randomize (sch : Scheme) (store : Store) (args : RandomizeArgs) :
    Except RandoError (Store × Nat) :=
  randomizeCore sch store args (fun slots => slots)

/-- Sequential single-threaded `randomize()` calls: each successful call
updates the store, a failed call leaves it unchanged. -/
def runRandomize (sch : Scheme) : Store → List RandomizeArgs → List (Except RandoError Nat)
  | _, [] => []
  | store, a :: rest =>
    match randomize sch store a with
    | .ok (st1, sid) => .ok sid :: runRandomize sch st1 rest
    | .error e => .error e :: runRandomize sch store rest

/-! ### List verifier (`randomization_list_verifier.py`) -/

/-- One data row of the manifest CSV as `verify` consumes it: the columns read
are `sid`, `assignment` and `site_name` (values are stripped strings in the
source; the `sid` column is compared against the integer model column through
the ORM lookup, so it appears here already as a number). -/
structure Row where
  sid : Nat
  assignment : String
  siteName : String
deriving DecidableEq

/-- Exceptions escaping `RandomizationListVerifier`: `typeError` from
`default_csv_fieldnames.extend(None)`, `nameError` from reading the loop
variable `index` after a zero-iteration loop, `indexError` from
`order_by("sid")[index]` past the end of the table, the unhandled
`MultipleObjectsReturned` of `objects.get(sid=...)`, `invalidAssignment` from
`get_assignment`, and `notRegistered` for the `RandomizationListError` raised
when the randomizer name is not in `site_randomizers`. -/
inductive VError where
  | typeError
  | nameError
  | indexError
  | multipleObjectsReturned
  | invalidAssignment (msg : String)
  | notRegistered (msg : String)
deriving DecidableEq

/-- Message appended when the model table is empty (count 0).  Quoting
punctuation of the source messages is elided throughout. -/
def notLoadedMsg : String :=
  "Randomization list has not been loaded. "
    ++ "Run the import_randomization_list management command "
    ++ "to load before using the system. "
    ++ "Resolve this issue before using the system."

/-- Message appended when rows are loaded but the manifest file is absent. -/
def fileMissingMsg (path : String) : String :=
  "Randomization list file does not exist but SIDs "
    ++ "have been loaded. Expected file " ++ path ++ ". "
    ++ "Resolve this issue before using the system."

/-- Message of `inspect_row` when no model row has the file row sid.  Its only
argument is the sid value from the file. -/
def invalidSidMsg (sid : Nat) : String :=
  "Randomization file has an invalid SID. Got " ++ toString sid

/-- Message of `inspect_row` when the file row sid differs from the sid at the
same position of the table ordered by sid; `line` is the 1-based line. -/
def sidOrderMsg (path : String) (line fileSid modelSid : Nat) : String :=
  "Randomization list has invalid SIDs. List has invalid SIDs. "
    ++ "File data does not match model data. See file " ++ path ++ ". "
    ++ "Resolve this issue before using the system. "
    ++ "Problem started on line " ++ toString line ++ ". "
    ++ "Got " ++ toString fileSid ++ " != " ++ toString modelSid ++ "."

/-- Message of `inspect_row` when the assignments differ for a matching sid:
carries the file value, the model value and the sid. -/
def assignmentMismatchMsg (path fileAssignment modelAssignment : String) (sid : Nat) : String :=
  "Randomization list does not match model. File data "
    ++ "does not match model data. See file " ++ path ++ ". "
    ++ "Resolve this issue before using the system. "
    ++ "Got " ++ fileAssignment ++ " != " ++ modelAssignment
    ++ " for sid=" ++ toString sid ++ "."

/-- Message of `inspect_row` when the site names differ for a matching sid:
carries the model value, the file value and the sid. -/
def siteMismatchMsg (path modelSite fileSite : String) (sid : Nat) : String :=
  "Randomization list does not match model. File data "
    ++ "does not match model data. See file " ++ path ++ ". "
    ++ "Resolve this issue before using the system. "
    ++ "Got " ++ modelSite ++ " != " ++ fileSite
    ++ " for sid=" ++ toString sid ++ "."

/-- Message of `verify` when the CSV row count differs from the table count. -/
def countMsg (path : String) (csvCount modelCount : Nat) : String :=
  "Randomization list count is off. Expected " ++ toString csvCount
    ++ " (CSV). Got " ++ toString modelCount ++ " (model_cls). See file "
    ++ path ++ ". Resolve this issue before using the system."

/-- `RandomizationListVerifier.get_assignment`: the row assignment must be a
key of the assignment map, else `InvalidAssignment` is raised. -/
def getAssignment (amap : List (String × Nat)) (rname : String) (row : Row) :
    Except VError String :=
  if (amap.lookup row.assignment).isSome then .ok row.assignment
  else
    .error (.invalidAssignment
      ("Invalid assignment. Got " ++ row.assignment
        ++ ". See randomizer " ++ rname ++ ". "))

/-- `RandomizationListVerifier.inspect_row` with 0-based `index`: fetch the
row at `index` of the table ordered by sid (an out-of-range index escapes as
`IndexError`), fetch the row whose sid is the file sid, then compare sid
position, assignment and site name, returning the first mismatch message. -/
def inspectRow (slots : List Slot) (amap : List (String × Nat)) (rname path : String)
    (index : Nat) (row : Row) : Except VError (Option String) :=
  match (sortedBySid slots).get? index with
  | none => .error .indexError
  | some obj1 =>
    match getOne (slots.filter (fun sl => sl.sid == row.sid)) with
    | .doesNotExist => .ok (some (invalidSidMsg row.sid))
    | .multipleObjectsReturned => .error .multipleObjectsReturned
    | .found obj2 =>
      if obj1.sid ≠ obj2.sid then
        .ok (some (sidOrderMsg path (index + 1) row.sid obj1.sid))
      else
        match getAssignment amap rname row with
        | .error e => .error e
        | .ok assignment =>
          if obj2.assignment ≠ assignment then
            .ok (some (assignmentMismatchMsg path assignment obj2.assignment obj2.sid))
          else if obj2.siteName ≠ row.siteName then
            .ok (some (siteMismatchMsg path obj2.siteName row.siteName obj2.sid))
          else .ok none

/-- The row loop of `verify`: `j` is the 0-based index of the current row
(the Python loop variable is `index = j + 1`).  Returns the first mismatch
message, if any, together with the final value of the Python `index` variable
(`0` marks the zero-iteration loop, where `index` was never assigned). -/
def verifyRows (slots : List Slot) (amap : List (String × Nat)) (rname path : String) :
    List Row → Nat → Except VError (Option String × Nat)
  | [], j => .ok (none, j)
  | row :: rest, j =>
    match inspectRow slots amap rname path j row with
    | .error e => .error e
    | .ok (some m) => .ok (some m, j + 1)
    | .ok none => verifyRows slots amap rname path rest (j + 1)

/-- `RandomizationListVerifier.verify`: run the row loop, then — only when no
row produced a message — compare the table count with the final loop index.
With a header-only manifest the loop never ran and reading `index` raises
`NameError`.  The test-only `sid_count_for_tests` early exit (default `None`)
is not modelled. -/
def verify (slots : List Slot) (count : Nat) (amap : List (String × Nat))
    (rname path : String) (rows : List Row) : Except VError (Option String) :=
  match verifyRows slots amap rname path rows 0 with
  | .error e => .error e
  | .ok (some m, _) => .ok (some m)
  | .ok (none, n) =>
    if n = 0 then .error .nameError
    else if count ≠ n then .ok (some (countMsg path n count))
    else .ok none

/-- The `messages` list collected by `RandomizationListVerifier.__init__`
after the fieldnames statement and the registry lookup: table empty → "not
loaded"; file absent while rows are loaded → "file missing"; otherwise the
result of `verify` (`count` is the table row count).  `file = none` models a
missing or unset `randomizationlist_path`. -/
def verifierMessages (slots : List Slot) (amap : List (String × Nat)) (rname path : String)
    (file : Option (List Row)) : Except VError (List String) :=
  if slots.length = 0 then .ok [notLoadedMsg]
  else
    match file with
    | none => .ok [fileMissingMsg path]
    | some rows =>
      match verify slots slots.length amap rname path rows with
      | .error e => .error e
      | .ok (some m) => .ok [m]
      | .ok none => .ok []

/-- A Python value that is either `None` or a list of strings: the possible
values of the `default_csv_fieldnames` attribute and of the
`extra_csv_fieldnames` argument. -/
inductive PyVal where
  | pyNone
  | pyList (xs : List String)
deriving DecidableEq

/-- Python `self.extend(arg)` on a list value: extending by a list mutates the
receiver and returns `None`; extending by `None` raises
`TypeError: NoneType object is not iterable`. -/
def listExtend (self arg : PyVal) : Except VError (PyVal × PyVal) :=
  match self, arg with
  | .pyList xs, .pyList ys => .ok (.pyList (xs ++ ys), .pyNone)
  | .pyList _, .pyNone => .error .typeError
  | .pyNone, _ => .error .typeError

/-- Class attribute `RandomizationListVerifier.default_csv_fieldnames`. -/
def defaultCsvFieldnames : List String := ["sid", "assignment", "site_name"]

/-- The statement `self.default_csv_fieldnames =
self.default_csv_fieldnames.extend(extra_csv_fieldnames)`: the attribute is
assigned the RETURN VALUE of `extend`, not the extended list. -/
def assignedFieldnames (extra : Option (List String)) : Except VError PyVal :=
  match listExtend (.pyList defaultCsvFieldnames)
      (match extra with | none => .pyNone | some xs => .pyList xs) with
  | .error e => .error e
  | .ok (_, ret) => .ok ret

/-- `RandomizationListVerifier.__init__` from the fieldnames statement on:
run the fieldnames assignment (its `TypeError` aborts everything), check the
randomizer is registered, then collect the messages.  The assigned fieldnames
are unused by `verify`, so only their effect on control flow matters. -/
def verifierInit (extra : Option (List String)) (registered : Bool) (slots : List Slot)
    (amap : List (String × Nat)) (rname path : String) (file : Option (List Row)) :
    Except VError (List String) :=
  match assignedFieldnames extra with
  | .error e => .error e
  | .ok _ =>
    if !registered then
      .error (.notRegistered ("Randomizer not registered. Got " ++ rname))
    else verifierMessages slots amap rname path file

/-- `Randomizer.verify_list`: constructs the verifier passing
`assignment_map`, the list path, the model class and the randomizer name, but
no `extra_csv_fieldnames` (which therefore defaults to `None`), and returns
its `messages`. -/
def verifyList (registered : Bool) (slots : List Slot) (amap : List (String × Nat))
    (path : String) (file : Option (List Row)) : Except VError (List String) :=
  verifierInit none registered slots amap "default" path file

/-! ### Exporter (`randomization_list_exporter.py`) -/

/-- The `fieldnames` list of `RandomizationListExporter.export`. -/
def exportFieldnames : List String :=
  ["subject_identifier", "sid", "assignment", "allocated_datetime", "site_name", "allocation"]

/-- Rendering of an optional string column by the csv writer (`None` becomes
the empty field). -/
def optStr : Option String → String
  | none => ""
  | some s => s

/-- Rendering of an optional datetime column by the csv writer. -/
def optNat : Option Nat → String
  | none => ""
  | some n => toString n

/-- One pipe-delimited data line of the export: the six fields of
`exportFieldnames` read off the slot row. -/
def renderRow (sl : Slot) : String :=
  String.intercalate "|"
    [optStr sl.subjectIdentifier, toString sl.sid, sl.assignment,
     optNat sl.allocatedDatetime, sl.siteName, toString sl.allocation]

/-- The slot rows the exporter iterates:
`filter(subject_identifier__isnull=False).order_by("sid")`. -/
def exportedSlots (slots : List Slot) : List Slot :=
  sortedBySid (slots.filter (fun sl => sl.subjectIdentifier.isSome))

/-- The lines of the file written by `RandomizationListExporter.export`: the
pipe-joined header, then one line per allocated slot in ascending sid order. -/
def exportLines (slots : List Slot) : List String :=
  String.intercalate "|" exportFieldnames :: (exportedSlots slots).map renderRow

/-! ### Spec-side definition for the refinement claim on `verify` -/

/-- One manifest row agrees with the table in the sense of the spec sentence
"for every manifest row the persisted Slot with that sid has the same sid
position, assignment, and site_name": exactly one table row carries the file
sid, it matches in assignment and site name, and the row at position `i` of
the table ordered by sid carries that same sid. -/
def rowOk (slots : List Slot) (i : Nat) (row : Row) : Bool :=
  (match slots.filter (fun sl => sl.sid == row.sid) with
   | [sl] => sl.assignment == row.assignment && sl.siteName == row.siteName
   | _ => false)
  && (match (sortedBySid slots).get? i with
      | some sl => sl.sid == row.sid
      | none => false)

/-- Spec-side notion of "the persisted Slot table exactly matches the
manifest file", written from the spec sentence, to be compared with the
behaviour of `verify`: nonzero persisted count equal to the manifest count,
and every manifest row agreeing per `rowOk`. -/
def specExactMatch (slots : List Slot) (rows : List Row) : Prop :=
  slots ≠ [] ∧ rows.length = slots.length ∧
  ∀ i (h : i < rows.length), rowOk slots i (rows.get ⟨i, h⟩) = true

instance (slots : List Slot) (rows : List Row) : Decidable (specExactMatch slots rows) :=
  inferInstanceAs (Decidable (_ ∧ _ ∧ ∀ i (h : i < rows.length),
    rowOk slots i (rows.get ⟨i, h⟩) = true))

/-! ### Concrete example data for witnesses and counterexamples -/

/-- Unallocated slot, sid 1, site north. -/
def exSlot1 : Slot := ⟨1, "active", "north", none, false, none, none, none, 1⟩

/-- Unallocated slot, sid 2, site north. -/
def exSlot2 : Slot := ⟨2, "placebo", "north", none, false, none, none, none, 2⟩

/-- Unallocated slot, sid 3, site north. -/
def exSlot3 : Slot := ⟨3, "active", "north", none, false, none, none, none, 1⟩

/-- A slot already allocated to subject S9. -/
def exAllocSlot : Slot := ⟨7, "placebo", "north", some "S9", true, some 11, some "erik", some "north", 2⟩

/-- An unrandomized registration for the given identifier. -/
def exReg (s : String) : Registration := ⟨some s, none, none, none, none⟩

/-- Complete randomize arguments for the given identifier at site north. -/
def exArgs (s : String) : RandomizeArgs := ⟨some s, some 5, some "north", some "erik"⟩

/-- Example assignment map. -/
def exAmap : List (String × Nat) := [("active", 1), ("placebo", 2)]

/-- Manifest row matching `exSlot1`. -/
def exRow1 : Row := ⟨1, "active", "north"⟩

/-- Manifest row matching `exSlot2`. -/
def exRow2 : Row := ⟨2, "placebo", "north"⟩

/-- Manifest row with a sid absent from the example table. -/
def exRow99 : Row := ⟨99, "active", "north"⟩

/-! ## Helper lemmas -/

theorem getOne_found_iff {α : Type} (l : List α) (x : α) :
    getOne l = .found x ↔ l = [x] := by
  match l with
  | [] => simp [getOne]
  | [a] => simp [getOne]
  | a :: b :: t => simp [getOne]

theorem getOne_dne_iff {α : Type} (l : List α) :
    getOne l = .doesNotExist ↔ l = [] := by
  match l with
  | [] => simp [getOne]
  | [a] => simp [getOne]
  | a :: b :: t => simp [getOne]

theorem updateFirst_decomp {α : Type} [DecidableEq α] (old new : α) :
    ∀ l : List α, old ∈ l →
      ∃ l₁ l₂, l = l₁ ++ old :: l₂ ∧ old ∉ l₁ ∧ updateFirst l old new = l₁ ++ new :: l₂
  | [], h => absurd h (List.not_mem_nil old)
  | x :: xs, h => by
    by_cases hx : x = old
    · exact ⟨[], xs, by simp [hx], by simp, by simp [updateFirst, hx]⟩
    · have hm : old ∈ xs := by
        rcases List.mem_cons.mp h with h1 | h1
        · exact absurd h1.symm hx
        · exact h1
      obtain ⟨l₁, l₂, hsp, hnm, hupd⟩ := updateFirst_decomp old new xs hm
      refine ⟨x :: l₁, l₂, by simp [hsp], ?_, by simp [updateFirst, hx, hupd]⟩
      intro hmem
      rcases List.mem_cons.mp hmem with h1 | h1
      · exact hx h1.symm
      · exact hnm h1

theorem filter_updateFirst_of_false {α : Type} [DecidableEq α] (q : α → Bool) (old new : α)
    (hold : q old = false) (hnew : q new = false) :
    ∀ l : List α, (updateFirst l old new).filter q = l.filter q
  | [] => rfl
  | x :: xs => by
    by_cases hx : x = old
    · simp [updateFirst, hx, List.filter_cons, hold, hnew]
    · simp [updateFirst, hx, List.filter_cons,
        filter_updateFirst_of_false q old new hold hnew xs]

theorem append_cons_eq_singleton {α : Type} {l₁ l₂ : List α} {x y : α}
    (h : l₁ ++ x :: l₂ = [y]) : l₁ = [] ∧ x = y ∧ l₂ = [] := by
  match l₁ with
  | [] => simpa using h
  | a :: t => simp at h

theorem filter_eq_singleton_inv {α : Type} {p : α → Bool} {l : List α} {x : α}
    (h : l.filter p = [x]) :
    x ∈ l ∧ p x = true := by
  have := List.mem_filter.mp (h ▸ List.mem_cons_self x [])
  exact this

theorem sortedBySid_sorted (slots : List Slot) : List.Sorted sidLE (sortedBySid slots) :=
  List.sorted_insertionSort sidLE slots

theorem sortedBySid_perm (slots : List Slot) : (sortedBySid slots).Perm slots :=
  List.perm_insertionSort sidLE slots

theorem selectSlot_none_iff (slots : List Slot) (s : String) (f : Slot → Bool) :
    selectSlot slots s f = none ↔ eligibleSlots slots s f = [] := by
  unfold selectSlot
  rw [List.head?_eq_none_iff]
  constructor
  · intro h
    have hp := List.perm_insertionSort sidLE (eligibleSlots slots s f)
    rw [h] at hp
    exact hp.symm.eq_nil
  · intro h
    rw [h]
    rfl

theorem selectSlot_spec {slots : List Slot} {s : String} {f : Slot → Bool} {sl : Slot}
    (h : selectSlot slots s f = some sl) :
    sl ∈ eligibleSlots slots s f ∧ ∀ x ∈ eligibleSlots slots s f, sl.sid ≤ x.sid := by
  unfold selectSlot at h
  have hsort := List.sorted_insertionSort sidLE (eligibleSlots slots s f)
  have hperm := List.perm_insertionSort sidLE (eligibleSlots slots s f)
  cases hc : List.insertionSort sidLE (eligibleSlots slots s f) with
  | nil => rw [hc] at h; simp at h
  | cons a t =>
    rw [hc] at h
    simp only [List.head?, Option.some.injEq] at h
    subst h
    rw [hc] at hsort hperm
    constructor
    · exact hperm.mem_iff.mp (List.mem_cons_self _ _)
    · intro x hx
      have hxL : x ∈ a :: t := hperm.mem_iff.mpr hx
      rcases List.mem_cons.mp hxL with h1 | h1
      · exact h1 ▸ Nat.le_refl _
      · exact (List.sorted_cons.mp hsort).1 x h1

theorem truthyStr_isSome {x : Option String} (h : truthyStr x = true) : x.isSome = true := by
  cases x with
  | none => simp [truthyStr] at h
  | some s => rfl

theorem requiredAttrs_all_inv {sch : Scheme} {args : RandomizeArgs}
    (h : (requiredAttrs sch args).all (fun kv => kv.2) = true) :
    args.reportDatetime.isSome = true ∧ truthyStr args.user = true
      ∧ args.site.isSome = true ∧ truthyStr args.subjectIdentifier = true := by
  simp only [requiredAttrs, List.all_append, List.all_cons, List.all_nil,
    Bool.and_eq_true] at h
  exact ⟨h.1.1, h.1.2.1, h.1.2.2.1, h.1.2.2.2.1⟩

theorem getAssignment_error_inv {amap : List (String × Nat)} {rname : String} {row : Row}
    {e : VError} (h : getAssignment amap rname row = .error e) :
    ∃ m, e = .invalidAssignment m := by
  unfold getAssignment at h
  split at h
  · simp at h
  · exact ⟨_, by injection h with h2; exact h2.symm⟩

theorem inspectRow_error_inv {slots : List Slot} {amap : List (String × Nat)}
    {rname path : String} {i : Nat} {row : Row} {e : VError}
    (h : inspectRow slots amap rname path i row = .error e) :
    e = .indexError ∨ e = .multipleObjectsReturned ∨ ∃ m, e = .invalidAssignment m := by
  unfold inspectRow at h
  split at h
  · left; injection h with h2; exact h2.symm
  · split at h
    · simp at h
    · right; left; injection h with h2; exact h2.symm
    · split at h
      · simp at h
      · split at h
        · rename_i heq
          right; right
          injection h with h2
          exact h2 ▸ getAssignment_error_inv heq
        · split at h
          · simp at h
          · split at h <;> simp at h

theorem verifyRows_error_inv {slots : List Slot} {amap : List (String × Nat)}
    {rname path : String} :
    ∀ {rows : List Row} {j : Nat} {e : VError},
      verifyRows slots amap rname path rows j = .error e →
      e = .indexError ∨ e = .multipleObjectsReturned ∨ ∃ m, e = .invalidAssignment m := by
  intro rows
  induction rows with
  | nil => intro j e h; simp [verifyRows] at h
  | cons row rest ih =>
    intro j e h
    unfold verifyRows at h
    split at h
    · rename_i heq
      injection h with h2
      exact h2 ▸ inspectRow_error_inv heq
    · simp at h
    · exact ih h

theorem verifyRows_ok_none_inv {slots : List Slot} {amap : List (String × Nat)}
    {rname path : String} :
    ∀ {rows : List Row} {j n : Nat},
      verifyRows slots amap rname path rows j = .ok (none, n) →
      n = j + rows.length
        ∧ ∀ i (h : i < rows.length),
            inspectRow slots amap rname path (j + i) (rows.get ⟨i, h⟩) = .ok none := by
  intro rows
  induction rows with
  | nil =>
    intro j n h
    simp only [verifyRows, Except.ok.injEq, Prod.mk.injEq] at h
    exact ⟨by simpa using h.2.symm, fun i hi => absurd hi (by simp)⟩
  | cons row rest ih =>
    intro j n h
    unfold verifyRows at h
    split at h
    · simp at h
    · simp at h
    · rename_i heq
      obtain ⟨hn, hall⟩ := ih h
      refine ⟨by simp only [List.length_cons]; omega, fun i hi => ?_⟩
      cases i with
      | zero => simpa using heq
      | succ k =>
        have h2 := hall k (by simpa using hi)
        rw [show (j + 1) + k = j + (k + 1) by omega] at h2
        simpa using h2

theorem verifyRows_of_clean {slots : List Slot} {amap : List (String × Nat)}
    {rname path : String} :
    ∀ (rows : List Row) (j : Nat),
      (∀ i (h : i < rows.length),
        inspectRow slots amap rname path (j + i) (rows.get ⟨i, h⟩) = .ok none) →
      verifyRows slots amap rname path rows j = .ok (none, j + rows.length) := by
  intro rows
  induction rows with
  | nil => intro j _; simp [verifyRows]
  | cons row rest ih =>
    intro j hall
    have h0 : inspectRow slots amap rname path j row = .ok none := by
      simpa using hall 0 (by simp)
    unfold verifyRows
    rw [h0]
    have h2 := ih (j + 1) (fun i hi => by
      have h3 := hall (i + 1) (by simpa using Nat.succ_lt_succ hi)
      rw [show j + (i + 1) = (j + 1) + i by omega] at h3
      simpa using h3)
    have h3 : j + 1 + rest.length = j + (row :: rest).length := by
      simp only [List.length_cons]
      omega
    rw [h2, h3]

theorem verifyRows_first_msg {slots : List Slot} {amap : List (String × Nat)}
    {rname path : String} :
    ∀ (rows₁ : List Row) (j : Nat) (row : Row) (rows₂ : List Row) (m : String),
      (∀ i (h : i < rows₁.length),
        inspectRow slots amap rname path (j + i) (rows₁.get ⟨i, h⟩) = .ok none) →
      inspectRow slots amap rname path (j + rows₁.length) row = .ok (some m) →
      verifyRows slots amap rname path (rows₁ ++ row :: rows₂) j
        = .ok (some m, j + rows₁.length + 1) := by
  intro rows₁
  induction rows₁ with
  | nil =>
    intro j row rows₂ m _ hmsg
    simp only [List.nil_append]
    unfold verifyRows
    rw [show j + List.length [] = j by simp] at hmsg
    rw [hmsg]
    simp
  | cons r rest ih =>
    intro j row rows₂ m hall hmsg
    have h0 : inspectRow slots amap rname path j r = .ok none := by
      simpa using hall 0 (by simp)
    simp only [List.cons_append]
    unfold verifyRows
    rw [h0]
    have hmsg2 : inspectRow slots amap rname path ((j + 1) + rest.length) row
        = .ok (some m) := by
      rw [show (j + 1) + rest.length = j + (r :: rest).length by
        simp only [List.length_cons]; omega]
      exact hmsg
    have h2 := ih (j + 1) row rows₂ m (fun i hi => by
        have h3 := hall (i + 1) (by simpa using Nat.succ_lt_succ hi)
        rw [show j + (i + 1) = (j + 1) + i by omega] at h3
        simpa using h3)
      hmsg2
    have h4 : j + 1 + rest.length + 1 = j + (r :: rest).length + 1 := by
      simp only [List.length_cons]
      omega
    rw [h2, h4]

theorem filter_conj_singleton {α : Type} (p q : α → Bool) :
    ∀ (l : List α) (x : α), l.filter q = [x] → p x = true →
      l.filter (fun a => p a && q a) = [x]
  | [], x, hq, _ => by simp at hq
  | a :: t, x, hq, hp => by
    by_cases hqa : q a = true
    · rw [List.filter_cons_of_pos hqa] at hq
      obtain ⟨hax, ht⟩ := List.cons_eq_cons.mp hq
      subst hax
      rw [List.filter_cons_of_pos (by simp [hp, hqa])]
      have hnil : t.filter (fun a => p a && q a) = [] := by
        rw [List.filter_eq_nil_iff]
        intro y hy hc
        rw [Bool.and_eq_true] at hc
        exact (List.filter_eq_nil_iff.mp ht) y hy hc.2
      rw [hnil]
    · have hqa2 : q a = false := by simpa using hqa
      rw [List.filter_cons_of_neg (by simp [hqa2])] at hq
      rw [List.filter_cons_of_neg (by simp [hqa2])]
      exact filter_conj_singleton p q t x hq hp

theorem filter_conj_eq_nil {α : Type} (p q : α → Bool) (l : List α)
    (h : ∀ x ∈ l, q x = true → p x = false) :
    l.filter (fun a => p a && q a) = [] := by
  rw [List.filter_eq_nil_iff]
  intro a ha hc
  rw [Bool.and_eq_true] at hc
  rw [h a ha hc.2] at hc
  exact Bool.false_ne_true hc.1

theorem filter_singleton_unique {α : Type} {q : α → Bool} {l : List α} {x y : α}
    (h : l.filter q = [y]) (hx : x ∈ l) (hq : q x = true) : x = y := by
  have hmem : x ∈ l.filter q := List.mem_filter.mpr ⟨hx, hq⟩
  rw [h] at hmem
  simpa using hmem

theorem registrationObj_ok {store : Store} {id : Option String} {r : Registration}
    (hreg : store.registrations.filter (fun x => x.subjectIdentifier == id) = [r])
    (hsid : r.sid = none) :
    registrationObj store id = .ok r := by
  have hfl : store.registrations.filter
      (fun x => x.sid == none && x.subjectIdentifier == id) = [r] :=
    filter_conj_singleton _ _ _ _ hreg (by simp [hsid])
  simp [registrationObj, hfl, getOne]

theorem registrationObj_already {store : Store} {id : Option String} {r : Registration}
    {n : Nat}
    (hreg : store.registrations.filter (fun x => x.subjectIdentifier == id) = [r])
    (hsid : r.sid = some n) :
    registrationObj store id = .error (.alreadyRandomized registrationModelLabel) := by
  have hfl : store.registrations.filter
      (fun x => x.sid == none && x.subjectIdentifier == id) = [] := by
    refine filter_conj_eq_nil _ _ _ (fun x hx hq => ?_)
    rw [filter_singleton_unique hreg hx hq]
    simp [hsid]
  simp [registrationObj, hfl, getOne, hreg]

theorem modelObj_select {sch : Scheme} {slots : List Slot} {id : Option String}
    {siteName : String} {sl : Slot}
    (hnoslot : slots.filter (fun x => x.subjectIdentifier == id) = [])
    (hsel : selectSlot slots siteName sch.extraFilter = some sl) :
    modelObj sch slots id siteName = .ok sl := by
  simp [modelObj, hnoslot, getOne, hsel]

theorem modelObj_exhausted {sch : Scheme} {slots : List Slot} {id : Option String}
    {siteName : String}
    (hnoslot : slots.filter (fun x => x.subjectIdentifier == id) = [])
    (hsel : selectSlot slots siteName sch.extraFilter = none) :
    modelObj sch slots id siteName
      = .error (.allocationError (allocMsg siteName sch.extraOpts)) := by
  simp [modelObj, hnoslot, getOne, hsel]

theorem modelObj_bound {sch : Scheme} {slots : List Slot} {id : Option String}
    {siteName : String} {sl : Slot}
    (hbound : slots.filter (fun x => x.subjectIdentifier == id) = [sl]) :
    modelObj sch slots id siteName = .error (.alreadyRandomized slotModelLabel) := by
  simp [modelObj, hbound, getOne]

theorem randomizeCore_reg_error {sch : Scheme} {store : Store} {args : RandomizeArgs}
    {g : List Slot → List Slot} {e : RandoError}
    (h : registrationObj store args.subjectIdentifier = .error e) :
    randomizeCore sch store args g = .error e := by
  simp [randomizeCore, h]

theorem randomizeCore_insufficient {sch : Scheme} {store : Store} {args : RandomizeArgs}
    {g : List Slot → List Slot} {r : Registration}
    (hreg : registrationObj store args.subjectIdentifier = .ok r)
    (hattrs : (requiredAttrs sch args).all (fun kv => kv.2) = false) :
    randomizeCore sch store args g
      = .error (.insufficientData (requiredAttrs sch args)) := by
  simp only [randomizeCore, hreg, hattrs, Bool.not_false, if_true]

theorem randomizeCore_modelObj_error {sch : Scheme} {store : Store} {args : RandomizeArgs}
    {g : List Slot → List Slot} {r : Registration} {s : String} {e : RandoError}
    (hreg : registrationObj store args.subjectIdentifier = .ok r)
    (hattrs : (requiredAttrs sch args).all (fun kv => kv.2) = true)
    (hsite : args.site = some s)
    (hmo : modelObj sch store.slots args.subjectIdentifier s = .error e) :
    randomizeCore sch store args g = .error e := by
  simp [randomizeCore, hreg, hattrs, hsite, hmo]

theorem requery_filter_after_claim {store : Store} {args : RandomizeArgs} {sl : Slot}
    (hnoslot : store.slots.filter
      (fun x => x.subjectIdentifier == args.subjectIdentifier) = [])
    (hmem : sl ∈ store.slots) :
    (updateFirst store.slots sl (claimSlot sl args)).filter
      (fun x => x.allocated && x.allocatedDatetime == args.reportDatetime
        && x.subjectIdentifier == args.subjectIdentifier) = [claimSlot sl args] := by
  obtain ⟨L₁, L₂, hdec, hnm, hupd⟩ :=
    updateFirst_decomp sl (claimSlot sl args) store.slots hmem
  have hnone : ∀ x ∈ store.slots,
      (x.subjectIdentifier == args.subjectIdentifier) = false := fun x hx =>
    Bool.eq_false_iff.mpr (List.filter_eq_nil_iff.mp hnoslot x hx)
  have hP1 : List.filter (fun x => x.allocated && x.allocatedDatetime == args.reportDatetime
      && x.subjectIdentifier == args.subjectIdentifier) L₁ = [] := by
    rw [List.filter_eq_nil_iff]
    intro x hx
    have hx2 : x ∈ store.slots := by
      rw [hdec]; exact List.mem_append.mpr (Or.inl hx)
    simp [hnone x hx2]
  have hP2 : List.filter (fun x => x.allocated && x.allocatedDatetime == args.reportDatetime
      && x.subjectIdentifier == args.subjectIdentifier) L₂ = [] := by
    rw [List.filter_eq_nil_iff]
    intro x hx
    have hx2 : x ∈ store.slots := by
      rw [hdec]; exact List.mem_append.mpr (Or.inr (List.mem_cons_of_mem _ hx))
    simp [hnone x hx2]
  have hPc : ((claimSlot sl args).allocated
      && (claimSlot sl args).allocatedDatetime == args.reportDatetime
      && (claimSlot sl args).subjectIdentifier == args.subjectIdentifier) = true := by
    simp [claimSlot]
  rw [hupd, List.filter_append, List.filter_cons, if_pos hPc, hP1, hP2]
  rfl

theorem reg_filter_after_update {regs : List Registration} {id : Option String}
    {r reg1 : Registration} {m : Nat}
    (hreg : regs.filter (fun x => x.subjectIdentifier == id) = [r])
    (hid1 : reg1.subjectIdentifier = r.subjectIdentifier)
    (hsid1 : reg1.sid = some m) :
    (updateFirst regs r reg1).filter
      (fun x => x.sid == some m && x.subjectIdentifier == id) = [reg1] := by
  obtain ⟨hrmem, hrq⟩ := filter_eq_singleton_inv hreg
  obtain ⟨R₁, R₂, hrdec, hrnm, hrupd⟩ := updateFirst_decomp r reg1 regs hrmem
  have hsplit : R₁.filter (fun x => x.subjectIdentifier == id) = []
      ∧ R₂.filter (fun x => x.subjectIdentifier == id) = [] := by
    rw [hrdec, List.filter_append, List.filter_cons, if_pos hrq] at hreg
    obtain ⟨h1, -, h2⟩ := append_cons_eq_singleton hreg
    exact ⟨h1, h2⟩
  have hQ1 : List.filter (fun x => x.sid == some m && x.subjectIdentifier == id) R₁ = [] := by
    rw [List.filter_eq_nil_iff]
    intro x hx
    have := List.filter_eq_nil_iff.mp hsplit.1 x hx
    simp [Bool.eq_false_iff.mpr this]
  have hQ2 : List.filter (fun x => x.sid == some m && x.subjectIdentifier == id) R₂ = [] := by
    rw [List.filter_eq_nil_iff]
    intro x hx
    have := List.filter_eq_nil_iff.mp hsplit.2 x hx
    simp [Bool.eq_false_iff.mpr this]
  have hQc : (reg1.sid == some m && reg1.subjectIdentifier == id) = true := by
    simp [hsid1, hid1]
    exact (beq_iff_eq).mp hrq
  rw [hrupd, List.filter_append, List.filter_cons, if_pos hQc, hQ1, hQ2]
  rfl

theorem randomizeCore_success {sch : Scheme} {store : Store} {args : RandomizeArgs}
    {r : Registration} {s : String} {sl : Slot} {g : List Slot → List Slot}
    (hreg : store.registrations.filter
      (fun x => x.subjectIdentifier == args.subjectIdentifier) = [r])
    (hsid : r.sid = none)
    (hattrs : (requiredAttrs sch args).all (fun kv => kv.2) = true)
    (hsite : args.site = some s)
    (hnoslot : store.slots.filter
      (fun x => x.subjectIdentifier == args.subjectIdentifier) = [])
    (hsel : selectSlot store.slots s sch.extraFilter = some sl)
    (hg : ∀ slots, g slots = slots) :
    randomizeCore sch store args g =
      .ok ({ slots := updateFirst store.slots sl (claimSlot sl args),
             registrations := updateFirst store.registrations r
               (updateRegistration r (claimSlot sl args)) }, sl.sid) := by
  have hro := registrationObj_ok hreg hsid
  have hmo : modelObj sch store.slots args.subjectIdentifier s = .ok sl :=
    modelObj_select hnoslot hsel
  have hmem : sl ∈ store.slots := (List.mem_filter.mp (selectSlot_spec hsel).1).1
  have hreq1 : (updateFirst store.slots sl (claimSlot sl args)).filter
      (fun x => x.allocated && x.allocatedDatetime == args.reportDatetime
        && x.subjectIdentifier == args.subjectIdentifier) = [claimSlot sl args] :=
    requery_filter_after_claim hnoslot hmem
  have hra : requeryAllocated (updateFirst store.slots sl (claimSlot sl args))
      args.reportDatetime args.subjectIdentifier = .ok (claimSlot sl args) := by
    simp [requeryAllocated, hreq1, getOne]
  have hregf : (updateFirst store.registrations r
      (updateRegistration r (claimSlot sl args))).filter
      (fun x => x.sid == some sl.sid && x.subjectIdentifier == args.subjectIdentifier)
      = [updateRegistration r (claimSlot sl args)] :=
    reg_filter_after_update hreg rfl rfl
  have hrr : requeryRegistration (updateFirst store.registrations r
        (updateRegistration r (claimSlot sl args))) sl.sid args.subjectIdentifier
      = .ok (updateRegistration r (claimSlot sl args)) := by
    simp [requeryRegistration, hregf, getOne]
  have hcs : (claimSlot sl args).sid = sl.sid := rfl
  simp only [randomizeCore, hro, hattrs, Bool.not_true, hsite, hmo, hg, hra, hcs, hrr]
  simp

theorem randomizeCore_requery_miss {sch : Scheme} {store : Store} {args : RandomizeArgs}
    {r : Registration} {s : String} {sl : Slot} {g : List Slot → List Slot}
    (hreg : store.registrations.filter
      (fun x => x.subjectIdentifier == args.subjectIdentifier) = [r])
    (hsid : r.sid = none)
    (hattrs : (requiredAttrs sch args).all (fun kv => kv.2) = true)
    (hsite : args.site = some s)
    (hnoslot : store.slots.filter
      (fun x => x.subjectIdentifier == args.subjectIdentifier) = [])
    (hsel : selectSlot store.slots s sch.extraFilter = some sl)
    (hg : (g (updateFirst store.slots sl (claimSlot sl args))).filter
      (fun x => x.allocated && x.allocatedDatetime == args.reportDatetime
        && x.subjectIdentifier == args.subjectIdentifier) = []) :
    randomizeCore sch store args g = .error .objectDoesNotExist := by
  have hro := registrationObj_ok hreg hsid
  have hmo : modelObj sch store.slots args.subjectIdentifier s = .ok sl :=
    modelObj_select hnoslot hsel
  have hra : requeryAllocated (g (updateFirst store.slots sl (claimSlot sl args)))
      args.reportDatetime args.subjectIdentifier = .error .objectDoesNotExist := by
    simp [requeryAllocated, hg, getOne]
  simp only [randomizeCore, hro, hattrs, Bool.not_true, hsite, hmo, hra]
  simp

theorem eligibleSlots_after_claim {slots : List Slot} {s : String} {f : Slot → Bool}
    {sl : Slot} {args : RandomizeArgs}
    (hmemE : sl ∈ eligibleSlots slots s f)
    (hid : args.subjectIdentifier.isSome = true) :
    eligibleSlots (updateFirst slots sl (claimSlot sl args)) s f
      = (eligibleSlots slots s f).erase sl := by
  have hmem : sl ∈ slots := (List.mem_filter.mp hmemE).1
  have hp : (sl.subjectIdentifier == none && sl.siteName == s && f sl) = true :=
    (List.mem_filter.mp hmemE).2
  obtain ⟨v, hv⟩ := Option.isSome_iff_exists.mp hid
  obtain ⟨L₁, L₂, hdec, hnm, hupd⟩ := updateFirst_decomp sl (claimSlot sl args) slots hmem
  have hpc : ((claimSlot sl args).subjectIdentifier == none
      && (claimSlot sl args).siteName == s && f (claimSlot sl args)) = false := by
    simp [claimSlot, hv]
  unfold eligibleSlots
  rw [hupd, List.filter_append, List.filter_cons, if_neg (by simp [hpc]), hdec,
    List.filter_append, List.filter_cons, if_pos hp]
  have hslnot : sl ∉ L₁.filter (fun sl => sl.subjectIdentifier == none
      && sl.siteName == s && f sl) :=
    fun hc => hnm (List.mem_filter.mp hc).1
  rw [List.erase_append_right _ hslnot, List.erase_cons_head]

theorem randomize_success {sch : Scheme} {store : Store} {args : RandomizeArgs}
    {r : Registration} {s : String} {sl : Slot}
    (hreg : store.registrations.filter
      (fun x => x.subjectIdentifier == args.subjectIdentifier) = [r])
    (hsid : r.sid = none)
    (hattrs : (requiredAttrs sch args).all (fun kv => kv.2) = true)
    (hsite : args.site = some s)
    (hnoslot : store.slots.filter
      (fun x => x.subjectIdentifier == args.subjectIdentifier) = [])
    (hsel : selectSlot store.slots s sch.extraFilter = some sl) :
    randomize sch store args =
      .ok ({ slots := updateFirst store.slots sl (claimSlot sl args),
             registrations := updateFirst store.registrations r
               (updateRegistration r (claimSlot sl args)) }, sl.sid) :=
  randomizeCore_success hreg hsid hattrs hsite hnoslot hsel (fun _ => rfl)

theorem runRandomize_spec (sch : Scheme) (s : String) :
    ∀ (argss : List RandomizeArgs) (store : Store),
      (eligibleSlots store.slots s sch.extraFilter).Pairwise (fun a b => a.sid ≠ b.sid) →
      argss.length = (eligibleSlots store.slots s sch.extraFilter).length + 1 →
      (argss.map (fun a => a.subjectIdentifier)).Pairwise (fun a b => a ≠ b) →
      (∀ a ∈ argss, a.site = some s
        ∧ (requiredAttrs sch a).all (fun kv => kv.2) = true
        ∧ (∃ r, store.registrations.filter
            (fun x => x.subjectIdentifier == a.subjectIdentifier) = [r] ∧ r.sid = none)
        ∧ store.slots.filter (fun x => x.subjectIdentifier == a.subjectIdentifier) = []) →
      ∃ sids : List Nat,
        runRandomize sch store argss
          = sids.map Except.ok ++ [.error (.allocationError (allocMsg s sch.extraOpts))]
        ∧ sids.length = (eligibleSlots store.slots s sch.extraFilter).length
        ∧ sids.Chain' (· < ·)
        ∧ ∀ n ∈ sids, ∃ e ∈ eligibleSlots store.slots s sch.extraFilter, n = e.sid := by
  intro argss
  induction argss with
  | nil =>
    intro store _ hlen _ _
    exact absurd hlen.symm (Nat.succ_ne_zero _)
  | cons a rest ih =>
    intro store hpw hlen hsubj hcond
    obtain ⟨hsite_a, hattrs_a, ⟨r, hreg_a, hsid_r⟩, hnoslot_a⟩ :=
      hcond a (List.mem_cons_self a rest)
    cases hselc : selectSlot store.slots s sch.extraFilter with
    | none =>
      have hE := (selectSlot_none_iff store.slots s sch.extraFilter).mp hselc
      have herr : randomize sch store a
          = .error (.allocationError (allocMsg s sch.extraOpts)) :=
        randomizeCore_modelObj_error (registrationObj_ok hreg_a hsid_r) hattrs_a hsite_a
          (modelObj_exhausted hnoslot_a hselc)
      have hrest : rest = [] := by
        rw [hE] at hlen
        simpa using List.length_eq_zero.mp (by simpa using hlen)
      subst hrest
      exact ⟨[], by simp [runRandomize, herr], by simp [hE], by simp, by simp⟩
    | some sl =>
      have hmemE : sl ∈ eligibleSlots store.slots s sch.extraFilter :=
        (selectSlot_spec hselc).1
      have hmin := (selectSlot_spec hselc).2
      have hidsome : a.subjectIdentifier.isSome = true :=
        truthyStr_isSome (requiredAttrs_all_inv hattrs_a).2.2.2
      have hsubnone : sl.subjectIdentifier = none := by
        have hp := (List.mem_filter.mp hmemE).2
        simp only [Bool.and_eq_true, beq_iff_eq] at hp
        exact hp.1.1
      have hsucc := randomize_success hreg_a hsid_r hattrs_a hsite_a hnoslot_a hselc
      have hrsub : r.subjectIdentifier = a.subjectIdentifier :=
        beq_iff_eq.mp (filter_eq_singleton_inv hreg_a).2
      have hE1 : eligibleSlots (updateFirst store.slots sl (claimSlot sl a)) s
          sch.extraFilter = (eligibleSlots store.slots s sch.extraFilter).erase sl :=
        eligibleSlots_after_claim hmemE hidsome
      have hpw1 : (eligibleSlots (updateFirst store.slots sl (claimSlot sl a)) s
          sch.extraFilter).Pairwise (fun a b => a.sid ≠ b.sid) := by
        rw [hE1]
        exact List.Pairwise.sublist (List.erase_sublist sl _) hpw
      have hlen1 : rest.length
          = (eligibleSlots (updateFirst store.slots sl (claimSlot sl a)) s
              sch.extraFilter).length + 1 := by
        rw [hE1, List.length_erase_of_mem hmemE]
        have hpos : 0 < (eligibleSlots store.slots s sch.extraFilter).length :=
          List.length_pos.mpr (fun hc => by rw [hc] at hmemE; exact absurd hmemE (by simp))
        simp only [List.length_cons] at hlen
        omega
      have hsubj0 : (a.subjectIdentifier :: rest.map (fun a => a.subjectIdentifier)).Pairwise
          (fun a b => a ≠ b) := by simpa using hsubj
      have hsubj1 : (rest.map (fun a => a.subjectIdentifier)).Pairwise
          (fun a b => a ≠ b) := (List.pairwise_cons.mp hsubj0).2
      have hcond1 : ∀ a2 ∈ rest, a2.site = some s
          ∧ (requiredAttrs sch a2).all (fun kv => kv.2) = true
          ∧ (∃ r2, (updateFirst store.registrations r
              (updateRegistration r (claimSlot sl a))).filter
              (fun x => x.subjectIdentifier == a2.subjectIdentifier) = [r2] ∧ r2.sid = none)
          ∧ (updateFirst store.slots sl (claimSlot sl a)).filter
              (fun x => x.subjectIdentifier == a2.subjectIdentifier) = [] := by
        intro a2 ha2
        obtain ⟨h1, h2, ⟨r2, hreg2, hsid2⟩, hnos2⟩ := hcond a2 (List.mem_cons_of_mem a ha2)
        have hne12 : a.subjectIdentifier ≠ a2.subjectIdentifier :=
          (List.pairwise_cons.mp hsubj0).1 a2.subjectIdentifier
            (List.mem_map_of_mem _ ha2)
        obtain ⟨v2, hv2⟩ := Option.isSome_iff_exists.mp
          (truthyStr_isSome (requiredAttrs_all_inv h2).2.2.2)
        have hq_old : (sl.subjectIdentifier == a2.subjectIdentifier) = false := by
          rw [hsubnone, hv2]
          rfl
        have hq_new : ((claimSlot sl a).subjectIdentifier == a2.subjectIdentifier)
            = false := by
          simp only [claimSlot]
          exact beq_eq_false_iff_ne.mpr hne12
        have hr_old : (r.subjectIdentifier == a2.subjectIdentifier) = false := by
          rw [hrsub]
          exact beq_eq_false_iff_ne.mpr hne12
        have hr_new : ((updateRegistration r (claimSlot sl a)).subjectIdentifier
            == a2.subjectIdentifier) = false := hr_old
        have hfreg := filter_updateFirst_of_false
          (fun x => x.subjectIdentifier == a2.subjectIdentifier) r
          (updateRegistration r (claimSlot sl a)) hr_old hr_new store.registrations
        have hfslots := filter_updateFirst_of_false
          (fun x => x.subjectIdentifier == a2.subjectIdentifier) sl (claimSlot sl a)
          hq_old hq_new store.slots
        refine ⟨h1, h2, ⟨r2, ?_, hsid2⟩, ?_⟩
        · rw [hfreg]
          exact hreg2
        · rw [hfslots]
          exact hnos2
      obtain ⟨sids', hrun', hlen', hchain', hmem'⟩ :=
        ih ({ slots := updateFirst store.slots sl (claimSlot sl a),
              registrations := updateFirst store.registrations r
                (updateRegistration r (claimSlot sl a)) } : Store)
          hpw1 hlen1 hsubj1 hcond1
      refine ⟨sl.sid :: sids', ?_, ?_, ?_, ?_⟩
      · simp only [runRandomize, hsucc, hrun', List.map_cons, List.cons_append]
      · rw [hE1] at hlen'
        rw [List.length_cons, hlen', List.length_erase_of_mem hmemE]
        have hpos : 0 < (eligibleSlots store.slots s sch.extraFilter).length :=
          List.length_pos.mpr (fun hc => by rw [hc] at hmemE; exact absurd hmemE (by simp))
        omega
      · rw [List.chain'_cons']
        refine ⟨?_, hchain'⟩
        intro y hy
        have hymem : y ∈ sids' := by
          cases sids' with
          | nil => simp at hy
          | cons z t =>
            simp only [List.head?, Option.mem_def, Option.some.injEq] at hy
            exact hy ▸ List.mem_cons_self z t
        obtain ⟨e2, he2, hye⟩ := hmem' y hymem
        rw [hE1] at he2
        have he2E : e2 ∈ eligibleSlots store.slots s sch.extraFilter :=
          List.mem_of_mem_erase he2
        have hle : sl.sid ≤ e2.sid := hmin e2 he2E
        have hneq : sl.sid ≠ e2.sid := by
          have hperm := List.perm_cons_erase hmemE
          have hpw2 : (sl :: (eligibleSlots store.slots s sch.extraFilter).erase sl).Pairwise
              (fun a b => a.sid ≠ b.sid) :=
            (List.Perm.pairwise_iff (fun h => Ne.symm h) hperm).mp hpw
          exact (List.pairwise_cons.mp hpw2).1 e2 he2
        omega
      · intro n hn
        rcases List.mem_cons.mp hn with h | h
        · exact ⟨sl, hmemE, h⟩
        · obtain ⟨e2, he2, hne2⟩ := hmem' n h
          rw [hE1] at he2
          exact ⟨e2, List.mem_of_mem_erase he2, hne2⟩

/-! ## Claim theorems -/

/-- C1: for a call whose subject has an unallocated registration, no bound
slot and complete attributes, the chosen slot has the smallest sid among the
slots of the caller site with null subject identifier passing the scheme's
extra filter; when no such slot exists the call fails with `AllocationError`
whose message is built from the exhausted filter values; and across K + 1
sequential single-threaded calls by distinct fresh subjects against K free
slots of one site, the K consumed sids are strictly increasing and the final
call fails with that `AllocationError`. -/
theorem c1_next_slot_ordering :
    (∀ (sch : Scheme) (store : Store) (args : RandomizeArgs) (r : Registration)
        (s : String),
      store.registrations.filter
        (fun x => x.subjectIdentifier == args.subjectIdentifier) = [r] →
      r.sid = none →
      (requiredAttrs sch args).all (fun kv => kv.2) = true →
      args.site = some s →
      store.slots.filter (fun x => x.subjectIdentifier == args.subjectIdentifier) = [] →
      (eligibleSlots store.slots s sch.extraFilter ≠ [] →
        ∃ sl st1, randomize sch store args = .ok (st1, sl.sid)
          ∧ sl ∈ eligibleSlots store.slots s sch.extraFilter
          ∧ ∀ x ∈ eligibleSlots store.slots s sch.extraFilter, sl.sid ≤ x.sid)
      ∧ (eligibleSlots store.slots s sch.extraFilter = [] →
        randomize sch store args = .error (.allocationError (allocMsg s sch.extraOpts))))
    ∧ (∀ (sch : Scheme) (s : String) (argss : List RandomizeArgs) (store : Store)
        (K : Nat),
      (eligibleSlots store.slots s sch.extraFilter).length = K →
      (eligibleSlots store.slots s sch.extraFilter).Pairwise (fun a b => a.sid ≠ b.sid) →
      argss.length = K + 1 →
      (argss.map (fun a => a.subjectIdentifier)).Pairwise (fun a b => a ≠ b) →
      (∀ a ∈ argss, a.site = some s
        ∧ (requiredAttrs sch a).all (fun kv => kv.2) = true
        ∧ (∃ r, store.registrations.filter
            (fun x => x.subjectIdentifier == a.subjectIdentifier) = [r] ∧ r.sid = none)
        ∧ store.slots.filter (fun x => x.subjectIdentifier == a.subjectIdentifier) = []) →
      ∃ sids : List Nat,
        runRandomize sch store argss
          = sids.map Except.ok ++ [.error (.allocationError (allocMsg s sch.extraOpts))]
        ∧ sids.length = K
        ∧ sids.Chain' (· < ·)) := by
  constructor
  · intro sch store args r s hreg hsid hattrs hsite hnoslot
    constructor
    · intro hne
      cases hselc : selectSlot store.slots s sch.extraFilter with
      | none => exact absurd ((selectSlot_none_iff _ _ _).mp hselc) hne
      | some sl =>
        exact ⟨sl, _, randomize_success hreg hsid hattrs hsite hnoslot hselc,
          (selectSlot_spec hselc).1, (selectSlot_spec hselc).2⟩
    · intro hE
      exact randomizeCore_modelObj_error (registrationObj_ok hreg hsid) hattrs hsite
        (modelObj_exhausted hnoslot ((selectSlot_none_iff _ _ _).mpr hE))
  · intro sch s argss store K hK hpw hlen hsubj hcond
    subst hK
    obtain ⟨sids, h1, h2, h3, -⟩ := runRandomize_spec sch s argss store hpw hlen hsubj hcond
    exact ⟨sids, h1, h2, h3⟩

set_option maxRecDepth 8192 in
/-- Witness for C1: with free slots of sids 2 and 1 at one site, a fresh
subject claims the minimal sid; and three sequential calls by fresh subjects
against the two free slots consume increasing sids then exhaust the pool. -/
theorem c1_next_slot_ordering_witness :
    (∃ sl st1,
      randomize defaultScheme ⟨[exSlot2, exSlot1], [exReg "S1"]⟩ (exArgs "S1")
          = .ok (st1, sl.sid)
        ∧ sl ∈ eligibleSlots [exSlot2, exSlot1] "north" defaultScheme.extraFilter
        ∧ ∀ x ∈ eligibleSlots [exSlot2, exSlot1] "north" defaultScheme.extraFilter,
            sl.sid ≤ x.sid)
    ∧ (∃ sids : List Nat,
      runRandomize defaultScheme
          ⟨[exSlot2, exSlot1], [exReg "S1", exReg "S2", exReg "S3"]⟩
          [exArgs "S1", exArgs "S2", exArgs "S3"]
        = sids.map Except.ok
          ++ [.error (.allocationError (allocMsg "north" defaultScheme.extraOpts))]
      ∧ sids.length = 2
      ∧ sids.Chain' (· < ·)) :=
  ⟨(c1_next_slot_ordering.1 defaultScheme ⟨[exSlot2, exSlot1], [exReg "S1"]⟩
      (exArgs "S1") (exReg "S1") "north"
      (by decide) (by decide) (by decide) (by decide) (by decide)).1 (by decide),
   c1_next_slot_ordering.2 defaultScheme "north" [exArgs "S1", exArgs "S2", exArgs "S3"]
      ⟨[exSlot2, exSlot1], [exReg "S1", exReg "S2", exReg "S3"]⟩ 2
      (by decide) (by decide) (by decide) (by decide)
      (by
        intro a ha
        rcases List.mem_cons.mp ha with h | h
        · subst h
          exact ⟨by decide, by decide, ⟨exReg "S1", by decide, rfl⟩, by decide⟩
        rcases List.mem_cons.mp h with h2 | h2
        · subst h2
          exact ⟨by decide, by decide, ⟨exReg "S2", by decide, rfl⟩, by decide⟩
        rcases List.mem_cons.mp h2 with h3 | h3
        · subst h3
          exact ⟨by decide, by decide, ⟨exReg "S3", by decide, rfl⟩, by decide⟩
        · exact absurd h3 (by simp))⟩

/-- C4: `randomize()` signals which store is out of sync through the
`AlreadyRandomized` code: a registration with a non-null sid fails with the
registration model label as code; a slot already bound to the identifier
(with the registration still unrandomized and the attributes complete) fails
with the rando model label as code; and the two codes are distinct. -/
theorem c4_already_randomized_codes :
    (∀ (sch : Scheme) (store : Store) (args : RandomizeArgs) (r : Registration) (n : Nat),
      store.registrations.filter
        (fun x => x.subjectIdentifier == args.subjectIdentifier) = [r] →
      r.sid = some n →
      randomize sch store args = .error (.alreadyRandomized registrationModelLabel))
    ∧ (∀ (sch : Scheme) (store : Store) (args : RandomizeArgs) (r : Registration)
        (sl : Slot),
      store.registrations.filter
        (fun x => x.subjectIdentifier == args.subjectIdentifier) = [r] →
      r.sid = none →
      (requiredAttrs sch args).all (fun kv => kv.2) = true →
      store.slots.filter (fun x => x.subjectIdentifier == args.subjectIdentifier) = [sl] →
      randomize sch store args = .error (.alreadyRandomized slotModelLabel))
    ∧ registrationModelLabel ≠ slotModelLabel := by
  refine ⟨?_, ?_, by decide⟩
  · intro sch store args r n hreg hsid
    exact randomizeCore_reg_error (registrationObj_already hreg hsid)
  · intro sch store args r sl hreg hsid hattrs hbound
    obtain ⟨-, -, hsome, -⟩ := requiredAttrs_all_inv hattrs
    obtain ⟨s, hs⟩ := Option.isSome_iff_exists.mp hsome
    exact randomizeCore_modelObj_error (registrationObj_ok hreg hsid) hattrs hs
      (modelObj_bound hbound)

/-- Witness for C4: a randomized registration yields the registration model
code; a slot bound to the subject yields the rando model code. -/
theorem c4_already_randomized_codes_witness :
    randomize defaultScheme
        ⟨[exSlot1], [⟨some "S1", some 4, none, none, none⟩]⟩ (exArgs "S1")
        = .error (.alreadyRandomized registrationModelLabel)
      ∧ randomize defaultScheme
        ⟨[⟨5, "active", "north", some "S1", true, some 3, some "erik", some "north", 1⟩],
         [exReg "S1"]⟩ (exArgs "S1")
        = .error (.alreadyRandomized slotModelLabel) :=
  ⟨c4_already_randomized_codes.1 defaultScheme
      ⟨[exSlot1], [⟨some "S1", some 4, none, none, none⟩]⟩ (exArgs "S1")
      ⟨some "S1", some 4, none, none, none⟩ 4 (by decide) (by decide),
   c4_already_randomized_codes.2.1 defaultScheme
      ⟨[⟨5, "active", "north", some "S1", true, some 3, some "erik", some "north", 1⟩],
       [exReg "S1"]⟩ (exArgs "S1") (exReg "S1")
      ⟨5, "active", "north", some "S1", true, some 3, some "erik", some "north", 1⟩
      (by decide) (by decide) (by decide) (by decide)⟩

/-- C6: after the registration resolves, `randomize` validates the required
attributes — allocated datetime, user, site, subject identifier and every
scheme-specific extra required attribute — and fails with the
insufficient-data error carrying the attribute dict, for every content of the
slot table (so before any slot is read or written); the dict names all
required fields, each missing one paired with `false`. -/
theorem c6_insufficient_data :
    ∀ (sch : Scheme) (store : Store) (args : RandomizeArgs) (r : Registration),
      registrationObj store args.subjectIdentifier = .ok r →
      (requiredAttrs sch args).all (fun kv => kv.2) = false →
      (∀ slots2 : List Slot,
        randomize sch { slots := slots2, registrations := store.registrations } args
          = .error (.insufficientData (requiredAttrs sch args)))
      ∧ (requiredAttrs sch args).map Prod.fst
          = ["allocated_datetime", "user", "site", "subject_identifier"]
            ++ sch.extraRequired.map Prod.fst
      ∧ (args.reportDatetime = none → ("allocated_datetime", false) ∈ requiredAttrs sch args)
      ∧ (args.user = none → ("user", false) ∈ requiredAttrs sch args)
      ∧ (args.site = none → ("site", false) ∈ requiredAttrs sch args)
      ∧ (args.subjectIdentifier = none →
          ("subject_identifier", false) ∈ requiredAttrs sch args) := by
  intro sch store args r hreg hattrs
  refine ⟨fun slots2 => randomizeCore_insufficient
      (show registrationObj ⟨slots2, store.registrations⟩ args.subjectIdentifier = .ok r
        from hreg) hattrs,
    by simp [requiredAttrs], ?_, ?_, ?_, ?_⟩
  · intro h
    simp [requiredAttrs, h]
  · intro h
    simp [requiredAttrs, h, truthyStr]
  · intro h
    simp [requiredAttrs, h]
  · intro h
    simp [requiredAttrs, h, truthyStr]

/-- Witness for C6: a call missing the user fails with the insufficient-data
error regardless of the slot table. -/
theorem c6_insufficient_data_witness :
    randomize defaultScheme ⟨[exSlot1], [exReg "S1"]⟩
        ⟨some "S1", some 5, some "north", none⟩
      = .error (.insufficientData
          (requiredAttrs defaultScheme ⟨some "S1", some 5, some "north", none⟩)) :=
  (c6_insufficient_data defaultScheme ⟨[], [exReg "S1"]⟩
      ⟨some "S1", some 5, some "north", none⟩ (exReg "S1")
      (by decide) (by decide)).1 [exSlot1]

/-- C5 (amended): after writing the claim fields, `randomize` re-reads by the
unique allocation predicate (`allocated`, the allocation datetime, the
subject identifier); when the re-read matches no row — as after interference
by a concurrent writer, modelled by the hook `g` — the call fails with the
unhandled Django `ObjectDoesNotExist` escaping the `get`, not with
`AllocationError` as the claim states. -/
theorem c5_requery_conflict :
    (∀ (slots : List Slot) (dt : Option Nat) (id : Option String),
      slots.filter (fun x => x.allocated && x.allocatedDatetime == dt
        && x.subjectIdentifier == id) = [] →
      requeryAllocated slots dt id = .error .objectDoesNotExist)
    ∧ (∀ (sch : Scheme) (store : Store) (args : RandomizeArgs) (r : Registration)
        (s : String) (sl : Slot) (g : List Slot → List Slot),
      store.registrations.filter
        (fun x => x.subjectIdentifier == args.subjectIdentifier) = [r] →
      r.sid = none →
      (requiredAttrs sch args).all (fun kv => kv.2) = true →
      args.site = some s →
      store.slots.filter (fun x => x.subjectIdentifier == args.subjectIdentifier) = [] →
      selectSlot store.slots s sch.extraFilter = some sl →
      (g (updateFirst store.slots sl (claimSlot sl args))).filter
        (fun x => x.allocated && x.allocatedDatetime == args.reportDatetime
          && x.subjectIdentifier == args.subjectIdentifier) = [] →
      randomizeCore sch store args g = .error .objectDoesNotExist) := by
  constructor
  · intro slots dt id h
    simp [requeryAllocated, h, getOne]
  · intro sch store args r s sl g hreg hsid hattrs hsite hnoslot hsel hg
    exact randomizeCore_requery_miss hreg hsid hattrs hsite hnoslot hsel hg

/-- Witness for C5 at a concrete run where the interference hook reverts the
claim before the re-read. -/
theorem c5_requery_conflict_witness :
    randomizeCore defaultScheme ⟨[exSlot1], [exReg "S1"]⟩ (exArgs "S1")
        (fun _ => [exSlot1])
      = .error .objectDoesNotExist :=
  c5_requery_conflict.2 defaultScheme ⟨[exSlot1], [exReg "S1"]⟩ (exArgs "S1")
    (exReg "S1") "north" exSlot1 (fun _ => [exSlot1])
    (by decide) (by decide) (by decide) (by decide) (by decide) (by decide) (by decide)

/-- Counterexample for C5 as stated: when a concurrent writer (the hook)
makes the re-read miss, the failure is `objectDoesNotExist` and is not an
`AllocationError` for any message. -/
theorem c5_counterexample :
    randomizeCore defaultScheme ⟨[exSlot1], [exReg "S1"]⟩ (exArgs "S1")
        (fun _ => [exSlot1])
        = .error .objectDoesNotExist
      ∧ ¬ ∃ m : String,
          randomizeCore defaultScheme ⟨[exSlot1], [exReg "S1"]⟩ (exArgs "S1")
            (fun _ => [exSlot1])
          = .error (.allocationError m) := by
  have h : randomizeCore defaultScheme ⟨[exSlot1], [exReg "S1"]⟩ (exArgs "S1")
      (fun _ => [exSlot1]) = .error .objectDoesNotExist := by decide
  refine ⟨h, ?_⟩
  rintro ⟨m, hm⟩
  rw [h] at hm
  exact RandoError.noConfusion (Except.error.inj hm)

/-- C3: constructing `RandomizationListVerifier` with `extra_csv_fieldnames`
omitted or `None` (the default, and how `Randomizer.verify_list` constructs
it) raises `TypeError` at the `default_csv_fieldnames.extend(...)` statement,
before any manifest or table comparison (the result is the same for every
slot table and manifest), so `verify_list` never returns a message list; and
when `extra_csv_fieldnames` is a list, `default_csv_fieldnames` is assigned
`None`, the return value of `list.extend`. -/
theorem c3_extend_type_error :
    (∀ (registered : Bool) (slots : List Slot) (amap : List (String × Nat))
        (rname path : String) (file : Option (List Row)),
      verifierInit none registered slots amap rname path file = .error .typeError)
    ∧ (∀ (registered : Bool) (slots : List Slot) (amap : List (String × Nat))
        (path : String) (file : Option (List Row)),
      verifyList registered slots amap path file = .error .typeError)
    ∧ (∀ xs : List String, assignedFieldnames (some xs) = .ok .pyNone) :=
  ⟨fun _ _ _ _ _ _ => rfl, fun _ _ _ _ _ => rfl, fun _ => rfl⟩

/-- C9: with a nonempty slot table and a manifest file holding only a header
(zero data rows) the count comparison of `verify` reads the never-assigned
loop variable, so verification fails with `NameError` instead of reporting a
count mismatch; and `NameError` can only arise that way — for a manifest
with at least one data row `verify` never raises it. -/
theorem c9_header_only_name_error :
    (∀ (slots : List Slot) (amap : List (String × Nat)) (rname path : String),
      slots ≠ [] →
      verifierMessages slots amap rname path (some ([] : List Row)) = .error .nameError)
    ∧ (∀ (slots : List Slot) (count : Nat) (amap : List (String × Nat))
        (rname path : String) (rows : List Row),
      rows ≠ [] →
      verify slots count amap rname path rows ≠ .error .nameError) := by
  constructor
  · intro slots amap rname path hne
    have hl : ¬slots.length = 0 := by simpa using hne
    simp [verifierMessages, hl, verify, verifyRows]
  · intro slots count amap rname path rows hne
    cases hv : verifyRows slots amap rname path rows 0 with
    | error e =>
      have : verify slots count amap rname path rows = .error e := by
        simp [verify, hv]
      rw [this]
      intro hc
      injection hc with h2
      subst h2
      rcases verifyRows_error_inv hv with h1 | h1 | ⟨m, h1⟩ <;> simp at h1
    | ok p =>
      obtain ⟨om, n⟩ := p
      cases om with
      | some m => simp [verify, hv]
      | none =>
        have hn : n = 0 + rows.length := (verifyRows_ok_none_inv hv).1
        have hn0 : ¬n = 0 := by
          rw [hn]
          simpa [Nat.pos_iff_ne_zero] using List.length_pos.mpr hne
        simp only [verify, hv]
        rw [if_neg hn0]
        split <;> simp

/-- Witness for C9 at a concrete table and manifest. -/
theorem c9_header_only_name_error_witness :
    verifierMessages [exSlot1] exAmap "default" "p.csv" (some ([] : List Row))
        = .error .nameError
      ∧ verify [exSlot1] 1 exAmap "default" "p.csv" [exRow1] ≠ .error .nameError :=
  ⟨c9_header_only_name_error.1 [exSlot1] exAmap "default" "p.csv" (by simp),
   c9_header_only_name_error.2 [exSlot1] 1 exAmap "default" "p.csv" [exRow1] (by simp)⟩

/-- C7: verification is fail-fast.  When rows before position `k` pass and
the row at `k` produces a discrepancy message, `verify` returns exactly that
one message — for every later row content and every table count, showing rows
beyond the first discrepancy are never consulted and the count comparison is
skipped — and the verifier message list is that singleton.  The count
comparison runs only after a clean positional pass (third conjunct). -/
theorem c7_fail_fast :
    (∀ (slots : List Slot) (amap : List (String × Nat)) (rname path : String)
        (rows₁ : List Row) (row : Row) (rows₂ : List Row) (m : String) (count : Nat),
      (∀ i (h : i < rows₁.length),
        inspectRow slots amap rname path i (rows₁.get ⟨i, h⟩) = .ok none) →
      inspectRow slots amap rname path rows₁.length row = .ok (some m) →
      verify slots count amap rname path (rows₁ ++ row :: rows₂) = .ok (some m))
    ∧ (∀ (slots : List Slot) (amap : List (String × Nat)) (rname path : String)
        (rows₁ : List Row) (row : Row) (rows₂ : List Row) (m : String),
      (∀ i (h : i < rows₁.length),
        inspectRow slots amap rname path i (rows₁.get ⟨i, h⟩) = .ok none) →
      inspectRow slots amap rname path rows₁.length row = .ok (some m) →
      slots ≠ [] →
      verifierMessages slots amap rname path (some (rows₁ ++ row :: rows₂)) = .ok [m])
    ∧ (∀ (slots : List Slot) (amap : List (String × Nat)) (rname path : String)
        (rows : List Row) (count : Nat),
      (∀ i (h : i < rows.length),
        inspectRow slots amap rname path i (rows.get ⟨i, h⟩) = .ok none) →
      rows ≠ [] → count ≠ rows.length →
      verify slots count amap rname path rows
        = .ok (some (countMsg path rows.length count))) := by
  have key : ∀ (slots : List Slot) (amap : List (String × Nat)) (rname path : String)
      (rows₁ : List Row) (row : Row) (rows₂ : List Row) (m : String) (count : Nat),
      (∀ i (h : i < rows₁.length),
        inspectRow slots amap rname path i (rows₁.get ⟨i, h⟩) = .ok none) →
      inspectRow slots amap rname path rows₁.length row = .ok (some m) →
      verify slots count amap rname path (rows₁ ++ row :: rows₂) = .ok (some m) := by
    intro slots amap rname path rows₁ row rows₂ m count hclean hmsg
    have hvr := verifyRows_first_msg rows₁ 0 row rows₂ m
      (fun i hi => by simpa using hclean i hi)
      (by simpa using hmsg)
    simp [verify, hvr]
  refine ⟨key, ?_, ?_⟩
  · intro slots amap rname path rows₁ row rows₂ m hclean hmsg hne
    have hl : ¬slots.length = 0 := by simpa using hne
    have hv := key slots amap rname path rows₁ row rows₂ m slots.length hclean hmsg
    simp [verifierMessages, hl, hv]
  · intro slots amap rname path rows count hclean hne hcount
    have hvr := verifyRows_of_clean rows 0 (fun i hi => by simpa using hclean i hi)
    rw [Nat.zero_add] at hvr
    have hn0 : ¬rows.length = 0 := by simpa using hne
    simp [verify, hvr, hn0, hcount]

set_option maxRecDepth 8192 in
/-- Witness for C7: a clean first row, an assignment mismatch on the second
row, a junk third row and an arbitrary count yield exactly the one mismatch
message; and a clean pass with a wrong count yields the count message. -/
theorem c7_fail_fast_witness :
    verify [exSlot1, exSlot2] 7 exAmap "default" "p.csv"
        ([exRow1] ++ (⟨2, "active", "north"⟩ : Row) :: [exRow99])
      = .ok (some (assignmentMismatchMsg "p.csv" "active" "placebo" 2))
    ∧ verifierMessages [exSlot1, exSlot2] exAmap "default" "p.csv"
        (some ([exRow1] ++ (⟨2, "active", "north"⟩ : Row) :: [exRow99]))
      = .ok [assignmentMismatchMsg "p.csv" "active" "placebo" 2]
    ∧ verify [exSlot1, exSlot2] 7 exAmap "default" "p.csv" [exRow1, exRow2]
      = .ok (some (countMsg "p.csv" 2 7)) :=
  ⟨c7_fail_fast.1 [exSlot1, exSlot2] exAmap "default" "p.csv" [exRow1]
      ⟨2, "active", "north"⟩ [exRow99] (assignmentMismatchMsg "p.csv" "active" "placebo" 2) 7
      (by decide) (by decide),
   c7_fail_fast.2.1 [exSlot1, exSlot2] exAmap "default" "p.csv" [exRow1]
      ⟨2, "active", "north"⟩ [exRow99] (assignmentMismatchMsg "p.csv" "active" "placebo" 2)
      (by decide) (by decide) (by decide),
   c7_fail_fast.2.2 [exSlot1, exSlot2] exAmap "default" "p.csv" [exRow1, exRow2] 7
      (by decide) (by decide) (by decide)⟩

/-- C8 (amended): `inspect_row` compares positionally — the file row sid
against the sid at the same position of the table ordered by sid.  When no
table row carries the file sid the message is `invalidSidMsg`, a function of
the sid value alone (it does NOT name the line, contrary to the claim; the
line number appears only in the sid-order mismatch message).  An assignment
or site mismatch for a matching sid reports both the file and the persisted
value. -/
theorem c8_inspect_row_messages :
    ∀ (slots : List Slot) (amap : List (String × Nat)) (rname path : String)
      (index : Nat) (row : Row) (obj1 : Slot),
      (sortedBySid slots).get? index = some obj1 →
      ((slots.filter (fun sl => sl.sid == row.sid) = [] →
          inspectRow slots amap rname path index row = .ok (some (invalidSidMsg row.sid)))
        ∧ (∀ obj2, slots.filter (fun sl => sl.sid == row.sid) = [obj2] →
            obj1.sid ≠ obj2.sid →
            inspectRow slots amap rname path index row
              = .ok (some (sidOrderMsg path (index + 1) row.sid obj1.sid)))
        ∧ (∀ obj2, slots.filter (fun sl => sl.sid == row.sid) = [obj2] →
            obj1.sid = obj2.sid →
            (amap.lookup row.assignment).isSome = true →
            obj2.assignment ≠ row.assignment →
            inspectRow slots amap rname path index row
              = .ok (some (assignmentMismatchMsg path row.assignment obj2.assignment obj2.sid)))
        ∧ (∀ obj2, slots.filter (fun sl => sl.sid == row.sid) = [obj2] →
            obj1.sid = obj2.sid →
            (amap.lookup row.assignment).isSome = true →
            obj2.assignment = row.assignment →
            obj2.siteName ≠ row.siteName →
            inspectRow slots amap rname path index row
              = .ok (some (siteMismatchMsg path obj2.siteName row.siteName obj2.sid)))) := by
  intro slots amap rname path index row obj1 hget
  have hget2 : (sortedBySid slots)[index]? = some obj1 := by
    rw [← List.get?_eq_getElem?]
    exact hget
  refine ⟨?_, ?_, ?_, ?_⟩
  · intro hf
    simp [inspectRow, hget2, hf, getOne]
  · intro obj2 hf hne
    simp [inspectRow, hget2, hf, getOne, hne]
  · intro obj2 hf heq hlook hne
    simp [inspectRow, hget2, hf, getOne, heq, getAssignment, hlook, hne]
  · intro obj2 hf heq hlook hasg hne
    simp [inspectRow, hget2, hf, getOne, heq, getAssignment, hlook, hasg, hne]

/-- Counterexample for C8 as stated: the invalid-SID discrepancy does not
name the line.  The same file row with an unknown sid produces the
byte-identical message at line 1 and at line 2, and that message carries only
the sid value — no message that depends only on the sid can name the line. -/
theorem c8_counterexample :
    inspectRow [exSlot1, exSlot2] exAmap "default" "p.csv" 0 exRow99
        = .ok (some (invalidSidMsg 99))
      ∧ inspectRow [exSlot1, exSlot2] exAmap "default" "p.csv" 1 exRow99
        = .ok (some (invalidSidMsg 99))
      ∧ invalidSidMsg 99 = "Randomization file has an invalid SID. Got 99" := by
  refine ⟨by decide, by decide, rfl⟩

set_option maxRecDepth 8192 in
/-- Witness for C8 at a concrete table: a sid-order mismatch at line 1
produces the positional message carrying the line number and both sids. -/
theorem c8_inspect_row_messages_witness :
    inspectRow [exSlot1, exSlot2] exAmap "default" "p.csv" 0 exRow2
      = .ok (some (sidOrderMsg "p.csv" 1 2 1)) :=
  (c8_inspect_row_messages [exSlot1, exSlot2] exAmap "default" "p.csv" 0 exRow2 exSlot1
      (by decide)).2.1 exSlot2 (by decide) (by decide)

/-- C10: the export consists of a header line with exactly the six columns
`subject_identifier, sid, assignment, allocated_datetime, site_name,
allocation`, followed by one pipe-delimited line per slot whose
`subject_identifier` is non-null, in ascending sid order; every exported row
comes from an allocated slot, every allocated slot is exported, and
unallocated slots never appear among the exported slots. -/
theorem c10_export_shape :
    (String.intercalate "|" exportFieldnames
      = "subject_identifier|sid|assignment|allocated_datetime|site_name|allocation")
    ∧ (∀ slots : List Slot,
        (exportLines slots).head? = some (String.intercalate "|" exportFieldnames))
    ∧ (∀ slots : List Slot,
        (exportLines slots).tail = (exportedSlots slots).map renderRow)
    ∧ (∀ slots : List Slot, ∀ sl ∈ exportedSlots slots,
        sl ∈ slots ∧ sl.subjectIdentifier.isSome = true)
    ∧ (∀ slots : List Slot, ∀ sl ∈ slots,
        sl.subjectIdentifier.isSome = true → sl ∈ exportedSlots slots)
    ∧ (∀ slots : List Slot,
        List.Pairwise (fun a b => a ≤ b) ((exportedSlots slots).map (fun sl => sl.sid)))
    ∧ (∀ slots : List Slot, (exportedSlots slots).length
        = (slots.filter (fun sl => sl.subjectIdentifier.isSome)).length) := by
  refine ⟨rfl, fun _ => rfl, fun _ => rfl, ?_, ?_, ?_, ?_⟩
  · intro slots sl hmem
    have h2 := (List.mem_insertionSort sidLE).mp hmem
    exact ⟨(List.mem_filter.mp h2).1, (List.mem_filter.mp h2).2⟩
  · intro slots sl hmem hsome
    exact (List.mem_insertionSort sidLE).mpr (List.mem_filter.mpr ⟨hmem, hsome⟩)
  · intro slots
    have h := List.sorted_insertionSort sidLE
      (slots.filter (fun sl => sl.subjectIdentifier.isSome))
    exact List.Pairwise.map (fun sl : Slot => sl.sid) (fun a b hab => hab) h
  · intro slots
    exact List.length_insertionSort sidLE
      (slots.filter (fun sl => sl.subjectIdentifier.isSome))

theorem getAssignment_ok_inv {amap : List (String × Nat)} {rname : String} {row : Row}
    {a : String} (h : getAssignment amap rname row = .ok a) :
    a = row.assignment ∧ (amap.lookup row.assignment).isSome = true := by
  unfold getAssignment at h
  split at h
  · rename_i hc
    exact ⟨(Except.ok.inj h).symm, hc⟩
  · simp at h

theorem inspectRow_ok_none_inv {slots : List Slot} {amap : List (String × Nat)}
    {rname path : String} {i : Nat} {row : Row}
    (h : inspectRow slots amap rname path i row = .ok none) :
    rowOk slots i row = true := by
  unfold inspectRow at h
  split at h
  · simp at h
  · rename_i obj1 hg
    split at h
    · simp at h
    · simp at h
    · rename_i obj2 hfound
      have hfl := (getOne_found_iff _ obj2).mp hfound
      have hp := filter_eq_singleton_inv hfl
      have hsid2 : obj2.sid = row.sid := by simpa using hp.2
      split at h
      · simp at h
      · rename_i hsid
        rw [not_ne_iff] at hsid
        split at h
        · simp at h
        · rename_i a heqA
          obtain ⟨ha, _⟩ := getAssignment_ok_inv heqA
          subst ha
          split at h
          · simp at h
          · rename_i hasg
            rw [not_ne_iff] at hasg
            split at h
            · simp at h
            · rename_i hsite
              rw [not_ne_iff] at hsite
              unfold rowOk
              rw [hfl, hg]
              simp [hasg, hsite, hsid, hsid2]

theorem inspectRow_of_rowOk {slots : List Slot} {amap : List (String × Nat)}
    {rname path : String} {i : Nat} {row : Row}
    (hk : (amap.lookup row.assignment).isSome = true)
    (hr : rowOk slots i row = true) :
    inspectRow slots amap rname path i row = .ok none := by
  unfold rowOk at hr
  rw [Bool.and_eq_true] at hr
  obtain ⟨hA, hB⟩ := hr
  cases hf : slots.filter (fun sl => sl.sid == row.sid) with
  | nil => rw [hf] at hA; simp at hA
  | cons a t =>
    cases t with
    | cons b t2 => rw [hf] at hA; simp at hA
    | nil =>
      rw [hf] at hA
      simp only [Bool.and_eq_true, beq_iff_eq] at hA
      obtain ⟨hasg, hsite⟩ := hA
      have ha_sid : a.sid = row.sid := by
        simpa using (filter_eq_singleton_inv hf).2
      cases hg : (sortedBySid slots).get? i with
      | none => rw [hg] at hB; simp at hB
      | some obj1 =>
        rw [hg] at hB
        simp only [beq_iff_eq] at hB
        unfold inspectRow
        rw [hg, hf]
        simp [getOne, hB, ha_sid, getAssignment, hk, hasg, hsite]

theorem specMatch_verifier_ok (slots : List Slot) (amap : List (String × Nat))
    (rname path : String) (rows : List Row)
    (hknown : ∀ r ∈ rows, (amap.lookup r.assignment).isSome = true)
    (hm : specExactMatch slots rows) :
    verifierMessages slots amap rname path (some rows) = .ok [] := by
  obtain ⟨hne, hlen, hall⟩ := hm
  have hclean : ∀ i (h : i < rows.length),
      inspectRow slots amap rname path i (rows.get ⟨i, h⟩) = .ok none :=
    fun i hi => inspectRow_of_rowOk (hknown _ (rows.get_mem i hi)) (hall i hi)
  have hvr := verifyRows_of_clean rows 0 (fun i hi => by simpa using hclean i hi)
  rw [Nat.zero_add] at hvr
  have hl0 : ¬slots.length = 0 := by simpa using hne
  have hr0 : ¬rows.length = 0 := by rw [hlen]; exact hl0
  have hv : verify slots slots.length amap rname path rows = .ok none := by
    simp [verify, hvr, hr0, hlen, hne]
  simp [verifierMessages, hl0, hv]

theorem verify_ok_none_inv {slots : List Slot} {count : Nat} {amap : List (String × Nat)}
    {rname path : String} {rows : List Row}
    (h : verify slots count amap rname path rows = .ok none) :
    verifyRows slots amap rname path rows 0 = .ok (none, rows.length)
      ∧ rows.length ≠ 0 ∧ count = rows.length := by
  unfold verify at h
  cases hvr : verifyRows slots amap rname path rows 0 with
  | error e =>
    simp only [hvr] at h
    exact Except.noConfusion h
  | ok p =>
    obtain ⟨om, n⟩ := p
    simp only [hvr] at h
    cases om with
    | some m => exact Option.noConfusion (Except.ok.inj h)
    | none =>
      replace h : (if n = 0 then (Except.error VError.nameError : Except VError (Option String))
          else if count ≠ n then .ok (some (countMsg path n count)) else .ok none)
            = .ok none := h
      by_cases hn0 : n = 0
      · rw [if_pos hn0] at h
        exact Except.noConfusion h
      · rw [if_neg hn0] at h
        by_cases hcnt : count ≠ n
        · rw [if_pos hcnt] at h
          exact Option.noConfusion (Except.ok.inj h)
        · obtain ⟨hn, -⟩ := verifyRows_ok_none_inv hvr
          rw [Nat.zero_add] at hn
          subst hn
          exact ⟨rfl, hn0, not_ne_iff.mp hcnt⟩

theorem verifierMessages_ok_nil_inv {slots : List Slot} {amap : List (String × Nat)}
    {rname path : String} {rows : List Row}
    (h : verifierMessages slots amap rname path (some rows) = .ok []) :
    slots.length ≠ 0 ∧ verify slots slots.length amap rname path rows = .ok none := by
  unfold verifierMessages at h
  by_cases hl : slots.length = 0
  · rw [if_pos hl] at h
    exact List.noConfusion (Except.ok.inj h)
  · rw [if_neg hl] at h
    cases hv : verify slots slots.length amap rname path rows with
    | error e =>
      simp only [hv] at h
      exact Except.noConfusion h
    | ok o =>
      cases o with
      | some m =>
        simp only [hv] at h
        exact List.noConfusion (Except.ok.inj h)
      | none => exact ⟨hl, rfl⟩

theorem verifier_ok_nil_specMatch (slots : List Slot) (amap : List (String × Nat))
    (rname path : String) (rows : List Row)
    (h : verifierMessages slots amap rname path (some rows) = .ok []) :
    specExactMatch slots rows := by
  obtain ⟨hl, hv⟩ := verifierMessages_ok_nil_inv h
  obtain ⟨hvr, hr0, hcnt⟩ := verify_ok_none_inv hv
  obtain ⟨-, hall⟩ := verifyRows_ok_none_inv hvr
  refine ⟨by simpa using hl, by omega, fun i hi => ?_⟩
  exact inspectRow_ok_none_inv (by simpa using hall i hi)

/-- C2 (amended): whenever the verifier completes normally and returns a
message list, that list is empty exactly when the persisted Slot table
matches the manifest — nonzero persisted count equal to the manifest count
and per-row agreement in sid position, assignment and site name
(`specExactMatch`, written from the spec sentence).  The hypothesis restricts
manifests to assignment codes known to the assignment map; the original
claim's "any divergence yields a non-empty discrepancy list" fails because
some divergent inputs crash instead of returning (see the counterexample). -/
theorem c2_verify_iff_match :
    ∀ (slots : List Slot) (amap : List (String × Nat)) (rname path : String)
      (rows : List Row) (msgs : List String),
      (∀ r ∈ rows, (amap.lookup r.assignment).isSome = true) →
      verifierMessages slots amap rname path (some rows) = .ok msgs →
      (msgs = [] ↔ specExactMatch slots rows) := by
  intro slots amap rname path rows msgs hknown hres
  constructor
  · intro hm
    subst hm
    exact verifier_ok_nil_specMatch slots amap rname path rows hres
  · intro hm
    have h2 := specMatch_verifier_ok slots amap rname path rows hknown hm
    rw [hres] at h2
    exact Except.ok.inj h2

set_option maxRecDepth 8192 in
/-- Witness for C2 at a concrete matching table and manifest. -/
theorem c2_verify_iff_match_witness :
    specExactMatch [exSlot2, exSlot1] [exRow1, exRow2] :=
  (c2_verify_iff_match [exSlot2, exSlot1] exAmap "default" "p.csv" [exRow1, exRow2] []
    (by decide) (by decide)).mp rfl

set_option maxRecDepth 8192 in
/-- Counterexample for C2 as stated: a manifest that extends one row past the
table after a clean prefix diverges from the table, yet `verify` crashes with
`IndexError` instead of producing a non-empty discrepancy list. -/
theorem c2_counterexample :
    verifierMessages [exSlot1] exAmap "default" "p.csv" (some [exRow1, exRow2])
        = .error .indexError
      ∧ ¬ specExactMatch [exSlot1] [exRow1, exRow2]
      ∧ ¬ ∃ msgs : List String, msgs ≠ []
          ∧ verifierMessages [exSlot1] exAmap "default" "p.csv" (some [exRow1, exRow2])
              = .ok msgs := by
  refine ⟨by decide, by decide, ?_⟩
  rintro ⟨msgs, -, hmsgs⟩
  rw [show verifierMessages [exSlot1] exAmap "default" "p.csv" (some [exRow1, exRow2])
      = .error .indexError by decide] at hmsgs
  exact Except.noConfusion hmsgs

/-- Witness for C10 at a concrete slot table with one allocated and two
unallocated slots. -/
theorem c10_export_shape_witness :
    (exAllocSlot ∈ [exSlot1, exAllocSlot, exSlot2]
        ∧ exAllocSlot.subjectIdentifier.isSome = true
        ∧ exAllocSlot ∈ exportedSlots [exSlot1, exAllocSlot, exSlot2])
      ∧ ∀ sl ∈ exportedSlots [exSlot1, exAllocSlot, exSlot2],
          sl ∈ [exSlot1, exAllocSlot, exSlot2] ∧ sl.subjectIdentifier.isSome = true :=
  ⟨⟨by decide, by decide,
      c10_export_shape.2.2.2.2.1 [exSlot1, exAllocSlot, exSlot2] exAllocSlot
        (by decide) (by decide)⟩,
    c10_export_shape.2.2.2.1 [exSlot1, exAllocSlot, exSlot2]⟩

end Edc
